import Mathlib

/-!
Verification of the borf parsing-and-evaluation pipeline.

This file shallowly embeds the data model and the operations of the borf
repository (Rust) into Lean 4 and proves, or refutes, the frozen claims
about it.  The embedding follows the source files:

  * src/parser/ast.rs        : AST types (Module, Declaration, TypeExpr,
                               Expr, Literal, Pattern)
  * src/evaluator/mod.rs     : runtime Value, Environment, native
                               primitives, eval, bind_pattern,
                               evaluate_quasiquote, PartialEq and Hash
                               implementations
  * src/parser/mod.rs        : the Pratt operator-precedence table
  * src/error_reporting.rs   : enhance_pest_error, suggest_fix
  * src/errors.rs            : ParseError::from_pest, suggest_fix
  * src/concurrent.rs        : DeterministicParseResults,
                               parse_files_deterministic
  * qparser/src/ast.rs       : the secondary expression evaluator (Q)

Conventions:
  * Machine integers (i64) are embedded as `Int` with the ranges
    `i64Min ≤ i ≤ i64Max` made explicit at the operations that check
    them; `usize`/`u64` values are `Nat` reduced mod `2^64` where the
    source wraps.
  * IEEE-754 binary64 (`f64`) values are embedded as their 64-bit
    pattern (a `Nat < 2^64`); arithmetic is the exact rational result
    rounded to nearest, ties to even, which is the IEEE-754 (and hence
    Rust) semantics of the basic operations.
  * Rust panics (debug-build overflow panics, the always-panicking
    division overflow) are a distinct `ROut.panic` outcome, separate
    from the `Result::Err` channel.
  * Source locations are omitted from the AST: the source's
    `PartialEq for SourceLocation` always returns true, so locations
    never influence any behaviour modelled here.
  * Hash maps (`FxHashMap`) are embedded as association lists; key
    lookup and insertion deduplicate by the runtime equality the map
    uses.
-/

namespace Borf

/-- Smallest i64 value, -2^63. -/
def i64Min : Int := -(2 ^ 63)

/-- Largest i64 value, 2^63 - 1. -/
def i64Max : Int := 2 ^ 63 - 1

/-- Does an integer fit in the signed 64-bit range? -/
def inI64 (i : Int) : Bool := i64Min ≤ i && i ≤ i64Max

/-! ## AST (src/parser/ast.rs)

`Literal::Float(f64)` carries the IEEE-754 bit pattern. -/

/-- AST literals (enum Literal). -/
inductive Lit where
  | int (i : Int)
  | float (bits : Nat)
  | str (s : String)
  | bool (b : Bool)

/-- Type expressions (enum TypeExpr), locations omitted. -/
inductive BTypeExpr where
  | name (s : String)
  | tvar (s : String)
  | func (a b : BTypeExpr)
  | linearFunc (a b : BTypeExpr)
  | product (a b : BTypeExpr)
  | sum (a b : BTypeExpr)
  | map (a b : BTypeExpr)
  | list (a : BTypeExpr)
  | set (a : BTypeExpr)
  | option (a : BTypeExpr)
  | linear (a : BTypeExpr)
  | sequence (a : BTypeExpr)
  | universal
  | void

/-- Patterns (enum Pattern), locations omitted.  `Pattern::Map` is an
`FxHashMap<String, Box<Pattern>>`, embedded as an association list. -/
inductive BPattern where
  | pvar (s : String)
  | lit (l : Lit)
  | wildcard
  | list (ps : List BPattern)
  | set (ps : List BPattern)
  | map (ps : List (String × BPattern))
  | typeAnnotated (p : BPattern) (t : BTypeExpr)

/-- Expressions (enum Expr), locations omitted.  `Expr::Map` is an
`FxHashMap<String, Box<Expr>>`, embedded as an association list. -/
inductive BExpr where
  | lit (l : Lit)
  | evar (s : String)
  | qualifiedName (parts : List String)
  | lam (params : List BPattern) (body : BExpr)
  | app (f : BExpr) (args : List BExpr)
  | letE (p : BPattern) (v : BExpr) (body : BExpr)
  | ifE (c t e : BExpr)
  | binaryOp (op : String) (l r : BExpr)
  | unaryOp (op : String) (o : BExpr)
  | list (es : List BExpr)
  | set (es : List BExpr)
  | map (entries : List (String × BExpr))
  | quote (e : BExpr)
  | unquote (e : BExpr)
  | unquoteSplice (e : BExpr)
  | quasiquote (e : BExpr)

/-- Declarations (enum Declaration), locations omitted. -/
inductive BDeclaration where
  | type (name : String) (t : BTypeExpr)
  | operation (name : String) (t : BTypeExpr)
  | function (name : String) (signature : BTypeExpr) (body : BExpr)
  | dependency (imp exp : String) (direct : Bool)
  | entity (name : String) (t : BTypeExpr) (init : Option BExpr)

/-! ## IEEE-754 binary64 model

`f64` values are their 64-bit pattern.  The basic operations are the
exact rational result rounded to nearest with ties to even, which is
what IEEE-754 (and therefore Rust's `f64` arithmetic) specifies. -/

/-- 2^k computed by a left shift (the elaborator and kernel evaluate
shifts of large magnitude directly). -/
def pow2 (k : Nat) : Nat := 1 <<< k

/-- Sign bit of an f64 bit pattern. -/
def f64Sign (b : Nat) : Bool := b / 2 ^ 63 % 2 == 1

/-- Biased exponent field (11 bits). -/
def f64Exp (b : Nat) : Nat := b / 2 ^ 52 % 2 ^ 11

/-- Mantissa field (52 bits). -/
def f64Mant (b : Nat) : Nat := b % 2 ^ 52

/-- NaN: all-ones exponent with a nonzero mantissa. -/
def f64IsNan (b : Nat) : Bool := f64Exp b == 2047 && f64Mant b != 0

/-- Infinity: all-ones exponent with a zero mantissa. -/
def f64IsInf (b : Nat) : Bool := f64Exp b == 2047 && f64Mant b == 0

/-- Zero of either sign: all bits below the sign bit are zero. -/
def f64IsZero (b : Nat) : Bool := b % 2 ^ 63 == 0

/-- Bit pattern of the canonical quiet NaN Rust operations produce. -/
def f64NanBits : Nat := 0x7FF8000000000000

/-- Bit pattern of positive infinity. -/
def f64InfBits : Nat := 0x7FF0000000000000

/-- Bit pattern of -0.0. -/
def f64NegZeroBits : Nat := 2 ^ 63

/-- An exact (not necessarily reduced) fraction num/den with a positive
denominator; the rational arithmetic of the float model is done on
these so that every step is explicit integer arithmetic. -/
structure Frac where
  num : Int
  den : Nat

/-- Exact fraction addition. -/
def fadd (a b : Frac) : Frac := ⟨a.num * b.den + b.num * a.den, a.den * b.den⟩

/-- Exact fraction multiplication. -/
def fmul (a b : Frac) : Frac := ⟨a.num * b.num, a.den * b.den⟩

/-- Exact fraction division (the divisor is nonzero at every call
site; the sign moves to the numerator). -/
def fdiv (a b : Frac) : Frac :=
  if 0 ≤ b.num then ⟨a.num * b.den, a.den * b.num.toNat⟩
  else ⟨-(a.num * b.den), a.den * (-b.num).toNat⟩

/-- Exact rational value of a finite f64 bit pattern (junk on NaN/Inf;
all callers dispatch those cases first). -/
def f64ToFrac (b : Nat) : Frac :=
  let magNum : Int :=
    if f64Exp b == 0 then f64Mant b
    else ((2 ^ 52 + f64Mant b) : Nat) * pow2 (f64Exp b)
  let den : Nat := if f64Exp b == 0 then pow2 1074 else pow2 1075
  if f64Sign b then ⟨-magNum, den⟩ else ⟨magNum, den⟩

/-- Flip the sign bit (Rust unary negation of an f64). -/
def f64Neg (b : Nat) : Nat := if b < 2 ^ 63 then b + 2 ^ 63 else b - 2 ^ 63

/-- Clear the sign bit (`f64::abs`). -/
def f64Abs (b : Nat) : Nat := b % 2 ^ 63

/-- Fuelled, tail-recursive halving loop for the base-2 logarithm (the
fuel always suffices: halving reaches 1 within n steps). -/
def natLog2Aux : Nat → Nat → Nat → Nat
  | 0, _, acc => acc
  | fuel + 1, n, acc => if n ≥ 2 then natLog2Aux fuel (n / 2) (acc + 1) else acc

/-- floor (log2 n) for n ≥ 1 (0 at 0); a structurally recursive stand-in
for `Nat.log2` so that concrete rounding computations reduce in the
kernel.  Every quantity the float model rounds is far below 2^8192, and
that range is resolved by a 13-step binary search on the exponent; the
(equivalent) fuelled halving loop covers larger inputs. -/
def natLog2 (n : Nat) : Nat :=
  if n < pow2 8192 then
    let e1 := if pow2 4096 ≤ n then 4096 else 0
    let e2 := if pow2 (e1 + 2048) ≤ n then e1 + 2048 else e1
    let e3 := if pow2 (e2 + 1024) ≤ n then e2 + 1024 else e2
    let e4 := if pow2 (e3 + 512) ≤ n then e3 + 512 else e3
    let e5 := if pow2 (e4 + 256) ≤ n then e4 + 256 else e4
    let e6 := if pow2 (e5 + 128) ≤ n then e5 + 128 else e5
    let e7 := if pow2 (e6 + 64) ≤ n then e6 + 64 else e6
    let e8 := if pow2 (e7 + 32) ≤ n then e7 + 32 else e7
    let e9 := if pow2 (e8 + 16) ≤ n then e8 + 16 else e8
    let e10 := if pow2 (e9 + 8) ≤ n then e9 + 8 else e9
    let e11 := if pow2 (e10 + 4) ≤ n then e10 + 4 else e10
    let e12 := if pow2 (e11 + 2) ≤ n then e11 + 2 else e11
    if pow2 (e12 + 1) ≤ n then e12 + 1 else e12
  else natLog2Aux n n 0

/-- Fuelled, tail-recursive base-10 logarithm loop. -/
def natLog10Aux : Nat → Nat → Nat → Nat
  | 0, _, acc => acc
  | fuel + 1, n, acc => if n ≥ 10 then natLog10Aux fuel (n / 10) (acc + 1) else acc

/-- floor (log10 n) for n ≥ 1 (0 at 0). -/
def natLog10 (n : Nat) : Nat := natLog10Aux n n 0

/-- Round the positive rational n/d (n, d > 0) to the nearest binary64,
ties to even, returning the bit pattern of the (positive) result:
possibly 0 on underflow or the +infinity pattern on overflow. -/
def rnePosBits (n d : Nat) : Nat :=
  -- RNE of num/den as an integer, ties to even.
  let rne : Nat → Nat → Nat := fun num den =>
    let q := num / den
    let r := num % den
    if 2 * r > den then q + 1
    else if 2 * r < den then q
    else if q % 2 == 0 then q else q + 1
  -- e = floor (log2 (n/d)); the log2 estimate can be off by one, fix up.
  let e0 : Int := (natLog2 n : Int) - (natLog2 d : Int)
  let lt2e : Int → Bool := fun e =>       -- is n/d < 2^e ?
    if e ≥ 0 then n < d * pow2 e.toNat else n * pow2 (-e).toNat < d
  let e : Int := if lt2e e0 then e0 - 1 else e0
  if e < -1022 then
    -- subnormal range: round n/d * 2^1074; a carry up to 2^52 lands
    -- exactly on the smallest normal encoding.
    rne (n * pow2 1074) d
  else
    -- normal range: scaled mantissa in [2^52, 2^53)
    let num := if e ≤ 52 then n * pow2 (52 - e).toNat else n
    let den := if e ≤ 52 then d else d * pow2 (e - 52).toNat
    let m := rne num den
    let m' := if m == 2 ^ 53 then 2 ^ 52 else m
    let e' := if m == 2 ^ 53 then e + 1 else e
    if e' > 1023 then f64InfBits
    else ((e' + 1023).toNat) * 2 ^ 52 + (m' - 2 ^ 52)

/-- Round any rational to the nearest binary64 bit pattern (ties to
even); an exact zero yields +0. -/
def roundF64 (q : Frac) : Nat :=
  if q.num = 0 then 0
  else if 0 < q.num then rnePosBits q.num.toNat q.den
  else 2 ^ 63 + rnePosBits (-q.num).toNat q.den

/-- Rust `i as f64` (round to nearest, ties to even). -/
def i64ToF64 (i : Int) : Nat := roundF64 ⟨i, 1⟩

/-- IEEE (Rust) f64 equality on bit patterns: NaN is never equal;
otherwise equal bit patterns, or the two zeros, are equal. -/
def f64Eq (a b : Nat) : Bool :=
  if f64IsNan a || f64IsNan b then false
  else a == b || (f64IsZero a && f64IsZero b)

/-- IEEE (Rust) f64 strict less-than on bit patterns. -/
def f64Lt (a b : Nat) : Bool :=
  if f64IsNan a || f64IsNan b then false
  else if f64IsZero a && f64IsZero b then false
  else
    match f64Sign a, f64Sign b with
    | false, false => a < b
    | true, true => f64Abs b < f64Abs a
    | true, false => true
    | false, true => false

/-- IEEE (Rust) f64 less-or-equal. -/
def f64Le (a b : Nat) : Bool := f64Lt a b || f64Eq a b

/-- Rust `a + b` on f64. -/
def f64Add (a b : Nat) : Nat :=
  if f64IsNan a || f64IsNan b then f64NanBits
  else if f64IsInf a && f64IsInf b then
    if f64Sign a == f64Sign b then a else f64NanBits
  else if f64IsInf a then a
  else if f64IsInf b then b
  else
    let q := fadd (f64ToFrac a) (f64ToFrac b)
    if q.num = 0 then
      -- IEEE sum is exactly zero: -0 only when both addends are -0
      -- (round-to-nearest mode), otherwise +0.
      if f64Sign a && f64Sign b then f64NegZeroBits else 0
    else roundF64 q

/-- Rust `a - b` on f64 (IEEE subtraction = addition of the negation). -/
def f64Sub (a b : Nat) : Nat := f64Add a (f64Neg b)

/-- Rust `a * b` on f64. -/
def f64Mul (a b : Nat) : Nat :=
  let sign := f64Sign a != f64Sign b
  if f64IsNan a || f64IsNan b then f64NanBits
  else if (f64IsInf a && f64IsZero b) || (f64IsZero a && f64IsInf b) then f64NanBits
  else if f64IsInf a || f64IsInf b then
    if sign then 2 ^ 63 + f64InfBits else f64InfBits
  else if f64IsZero a || f64IsZero b then
    if sign then f64NegZeroBits else 0
  else roundF64 (fmul (f64ToFrac a) (f64ToFrac b))

/-- Rust `a / b` on f64. -/
def f64Div (a b : Nat) : Nat :=
  let sign := f64Sign a != f64Sign b
  if f64IsNan a || f64IsNan b then f64NanBits
  else if f64IsInf a && f64IsInf b then f64NanBits
  else if f64IsZero a && f64IsZero b then f64NanBits
  else if f64IsInf a then
    if sign then 2 ^ 63 + f64InfBits else f64InfBits
  else if f64IsInf b then
    if sign then f64NegZeroBits else 0
  else if f64IsZero b then
    if sign then 2 ^ 63 + f64InfBits else f64InfBits
  else if f64IsZero a then
    if sign then f64NegZeroBits else 0
  else roundF64 (fdiv (f64ToFrac a) (f64ToFrac b))

/-- Bit pattern of `f64::EPSILON` (2^-52). -/
def f64EpsilonBits : Nat := 0x3CB0000000000000

/-! ## Structural equality of AST nodes

The Rust AST types derive `PartialEq`; `SourceLocation`'s `PartialEq`
always returns true, so the derived equality is structural on the
location-free tree, with `f64` payloads compared by IEEE equality and
`FxHashMap` payloads compared as maps (same length, every key of the
left present in the right with an equal value). -/

/-- Derived `PartialEq` on `Literal` (floats use IEEE equality). -/
def litEq : Lit → Lit → Bool
  | .int a, .int b => a == b
  | .float a, .float b => f64Eq a b
  | .str a, .str b => a == b
  | .bool a, .bool b => a == b
  | _, _ => false

/-- Derived `PartialEq` on `TypeExpr`. -/
def typeExprEq : BTypeExpr → BTypeExpr → Bool
  | .name a, .name b => a == b
  | .tvar a, .tvar b => a == b
  | .func a b, .func c d => typeExprEq a c && typeExprEq b d
  | .linearFunc a b, .linearFunc c d => typeExprEq a c && typeExprEq b d
  | .product a b, .product c d => typeExprEq a c && typeExprEq b d
  | .sum a b, .sum c d => typeExprEq a c && typeExprEq b d
  | .map a b, .map c d => typeExprEq a c && typeExprEq b d
  | .list a, .list b => typeExprEq a b
  | .set a, .set b => typeExprEq a b
  | .option a, .option b => typeExprEq a b
  | .linear a, .linear b => typeExprEq a b
  | .sequence a, .sequence b => typeExprEq a b
  | .universal, .universal => true
  | .void, .void => true
  | _, _ => false

mutual

/-- Derived `PartialEq` on `Pattern`. -/
def patternEq : BPattern → BPattern → Bool
  | .pvar a, .pvar b => a == b
  | .lit a, .lit b => litEq a b
  | .wildcard, .wildcard => true
  | .list a, .list b => patternListEq a b
  | .set a, .set b => patternListEq a b
  | .map a, .map b => a.length == b.length && patternMapSubEq a b
  | .typeAnnotated p t, .typeAnnotated q u => patternEq p q && typeExprEq t u
  | _, _ => false

/-- Element-wise pattern-list equality. -/
def patternListEq : List BPattern → List BPattern → Bool
  | [], [] => true
  | p :: ps, q :: qs => patternEq p q && patternListEq ps qs
  | _, _ => false

/-- Every (key, pattern) entry of the left map is present in the right
map with an equal pattern (`HashMap` equality after the length check). -/
def patternMapSubEq : List (String × BPattern) → List (String × BPattern) → Bool
  | [], _ => true
  | (k, p) :: rest, b =>
    (match b.find? (fun kv => kv.1 == k) with
     | some kv => patternEq p kv.2
     | none => false) && patternMapSubEq rest b

end

mutual

/-- Derived `PartialEq` on `Expr`. -/
def exprEq : BExpr → BExpr → Bool
  | .lit a, .lit b => litEq a b
  | .evar a, .evar b => a == b
  | .qualifiedName a, .qualifiedName b => a == b
  | .lam ps a, .lam qs b => patternListEq ps qs && exprEq a b
  | .app f as, .app g bs => exprEq f g && exprListEq as bs
  | .letE p v a, .letE q w b => patternEq p q && exprEq v w && exprEq a b
  | .ifE c t e, .ifE c' t' e' => exprEq c c' && exprEq t t' && exprEq e e'
  | .binaryOp o l r, .binaryOp o' l' r' => o == o' && exprEq l l' && exprEq r r'
  | .unaryOp o a, .unaryOp o' b => o == o' && exprEq a b
  | .list a, .list b => exprListEq a b
  | .set a, .set b => exprListEq a b
  | .map a, .map b => a.length == b.length && exprMapSubEq a b
  | .quote a, .quote b => exprEq a b
  | .unquote a, .unquote b => exprEq a b
  | .unquoteSplice a, .unquoteSplice b => exprEq a b
  | .quasiquote a, .quasiquote b => exprEq a b
  | _, _ => false

/-- Element-wise expression-list equality. -/
def exprListEq : List BExpr → List BExpr → Bool
  | [], [] => true
  | e :: es, f :: fs => exprEq e f && exprListEq es fs
  | _, _ => false

/-- Every (key, expr) entry of the left map is present in the right map
with an equal expression. -/
def exprMapSubEq : List (String × BExpr) → List (String × BExpr) → Bool
  | [], _ => true
  | (k, e) :: rest, b =>
    (match b.find? (fun kv => kv.1 == k) with
     | some kv => exprEq e kv.2
     | none => false) && exprMapSubEq rest b

end

/-! ## Runtime values and environments (src/evaluator/mod.rs) -/

/-- Evaluation errors (enum EvalError). -/
inductive EvalError where
  | unboundVariable (s : String)
  | typeError (expected foundType value : String)
  | arityMismatch (context expected : String) (found : Nat)
  | notAFunction (s : String)
  | divisionByZero
  | invalidArguments (context message : String)
  | patternMatchFailed (value pat : String)
  | cannotSetUndefined (s : String)
  | invalidOperation (s : String)
  | quasiquoteError (s : String)
  | preludeError (s : String)
  | parseError (s : String)
  | hashingError (value typeName : String)
  | complexTypeMismatch (message : String)
deriving DecidableEq

/-- Outcome of running a piece of Rust code that may return a value,
return an error, or panic.  Panics model debug-build arithmetic
overflow panics and the always-panicking division/remainder overflow. -/
inductive ROut (α : Type) where
  | ok (v : α)
  | err (e : EvalError)
  | panic (msg : String)

mutual

/-- Runtime function values (enum BorfFunction).  A closure captures
its defining environment by reference; the environment chain is
embedded as the data it holds. -/
inductive BorfFunction where
  | native (name : String)
  | closure (params : List BPattern) (body : BExpr) (env : BEnvData)

/-- Runtime values (enum Value).  `Map` and `Set` (`FxHashMap`) are
embedded as association lists; `Float` carries the f64 bit pattern. -/
inductive BValue where
  | integer (i : Int)
  | float (bits : Nat)
  | str (s : String)
  | bool (b : Bool)
  | symbol (s : String)
  | list (vs : List BValue)
  | map (entries : List (BValue × BValue))
  | set (elems : List BValue)
  | function (f : BorfFunction)
  | module (name : String)
  | quote (e : BExpr)
  | null
  | void

/-- An environment frame: a binding table and an optional parent
(struct Environment). -/
inductive BEnvData where
  | frame (bindings : List (String × BValue)) (outer : Option BEnvData)

end

/-- The binding table of a frame. -/
def BEnvData.bindings : BEnvData → List (String × BValue)
  | .frame bs _ => bs

/-- The parent of a frame. -/
def BEnvData.outer : BEnvData → Option BEnvData
  | .frame _ o => o

/-- Insert-or-replace in a string-keyed binding table (`HashMap::insert`). -/
def bindingsInsert (bs : List (String × BValue)) (name : String) (v : BValue) :
    List (String × BValue) :=
  if bs.any (fun kv => kv.1 == name) then
    bs.map (fun kv => if kv.1 == name then (name, v) else kv)
  else bs ++ [(name, v)]

/-- `Environment::define`: bind in the current frame. -/
def envDefine (e : BEnvData) (name : String) (v : BValue) : BEnvData :=
  .frame (bindingsInsert e.bindings name v) e.outer

/-- `Environment::new_extending`: fresh empty child frame. -/
def envExtend (e : BEnvData) : BEnvData := .frame [] (some e)

/-- `Environment::lookup`: search outwards through enclosing frames. -/
def envLookup : BEnvData → String → Option BValue
  | .frame bs outer, name =>
    match bs.find? (fun kv => kv.1 == name) with
    | some kv => some kv.2
    | none =>
      match outer with
      | some o => envLookup o name
      | none => none

/-- `Value::type_name`. -/
def BValue.typeName : BValue → String
  | .integer _ => "Integer"
  | .float _ => "Float"
  | .str _ => "String"
  | .bool _ => "Boolean"
  | .symbol _ => "Symbol"
  | .list _ => "List"
  | .map _ => "Map"
  | .set _ => "Set"
  | .function _ => "Function"
  | .module _ => "Module"
  | .quote _ => "Quote"
  | .null => "Null"
  | .void => "Void"

mutual

/-- `PartialEq for Value`: NaN equals NaN, Integer and Float compare
across types through `i as f64`, Map/Set compare as hash maps, and
functions compare through `PartialEq for BorfFunction`. -/
def valueEq : BValue → BValue → Bool
  | .integer a, .integer b => a == b
  | .float a, .float b => if f64IsNan a && f64IsNan b then true else f64Eq a b
  | .integer a, .float b => f64Eq (i64ToF64 a) b
  | .float a, .integer b => f64Eq a (i64ToF64 b)
  | .bool a, .bool b => a == b
  | .str a, .str b => a == b
  | .symbol a, .symbol b => a == b
  | .list a, .list b => valueListEq a b
  | .map a, .map b => a.length == b.length && mapSubEq a b
  | .set a, .set b => a.length == b.length && setSubEq a b
  | .function a, .function b => borfFunctionEq a b
  | .module a, .module b => a == b
  | .quote a, .quote b => exprEq a b
  | .null, .null => true
  | .void, .void => true
  | _, _ => false
termination_by a b => sizeOf a + sizeOf b
decreasing_by all_goals (simp_wf; try omega)

/-- Element-wise list equality (`SmallVec` `PartialEq`). -/
def valueListEq : List BValue → List BValue → Bool
  | [], [] => true
  | v :: vs, w :: ws => valueEq v w && valueListEq vs ws
  | _, _ => false
termination_by a b => sizeOf a + sizeOf b
decreasing_by all_goals (simp_wf; try omega)

/-- Every (k, v) of the left map has `get(k) == Some(v)` in the right
map (`HashMap` `PartialEq` after the length check). -/
def mapSubEq : List (BValue × BValue) → List (BValue × BValue) → Bool
  | [], _ => true
  | (k, v) :: rest, b => mapLookupEq k v b && mapSubEq rest b
termination_by a b => sizeOf a + sizeOf b
decreasing_by all_goals (simp_wf; try omega)

/-- Does the right map contain key `k` (by runtime value equality) with
a value equal to `v`? -/
def mapLookupEq (k v : BValue) : List (BValue × BValue) → Bool
  | [] => false
  | (k', v') :: rest =>
    if valueEq k k' then valueEq v v' else mapLookupEq k v rest
termination_by b => sizeOf k + sizeOf v + sizeOf b
decreasing_by all_goals (simp_wf; try omega)

/-- Every key of the left set is contained in the right set
(`map_a.keys().all(|k| map_b.contains_key(k))`). -/
def setSubEq : List BValue → List BValue → Bool
  | [], _ => true
  | k :: rest, b => setContains k b && setSubEq rest b
termination_by a b => sizeOf a + sizeOf b
decreasing_by all_goals (simp_wf; try omega)

/-- Does the set contain a key equal to `k`? -/
def setContains (k : BValue) : List BValue → Bool
  | [] => false
  | k' :: rest => if valueEq k k' then true else setContains k rest
termination_by b => sizeOf k + sizeOf b
decreasing_by all_goals (simp_wf; try omega)

/-- `PartialEq for BorfFunction`: a closure comparison ignores the
captured environment. -/
def borfFunctionEq : BorfFunction → BorfFunction → Bool
  | .native a, .native b => a == b
  | .closure p1 b1 _, .closure p2 b2 _ => patternListEq p1 p2 && exprEq b1 b2
  | _, _ => false

end

mutual

/-- `is_hashable`: Function/Module/Quote are never hashable; collections
are hashable when all their parts are. -/
def isHashable : BValue → Bool
  | .integer _ | .float _ | .bool _ | .str _ | .symbol _ | .null | .void => true
  | .list l => isHashableList l
  | .map m => isHashableMap m
  | .set s => isHashableList s
  | .function _ | .module _ | .quote _ => false

/-- All elements hashable. -/
def isHashableList : List BValue → Bool
  | [] => true
  | v :: vs => isHashable v && isHashableList vs

/-- All keys and values hashable. -/
def isHashableMap : List (BValue × BValue) → Bool
  | [] => true
  | (k, v) :: rest => (isHashable k && isHashable v) && isHashableMap rest

end

/-! ## Rendering values and AST nodes to strings

The evaluator embeds rendered values in its error messages
(`format!("{}", value)`, `format!("{:?}", pattern)`), so the `Display`
and `Debug` renderings are part of the embedded behaviour.  Rust's
`Display` for `f64` prints the shortest decimal string that parses back
to the same float, in plain (never scientific) notation; that is what
`f64ShortestDec` computes by searching the precision. -/

/-- floor (log10 (n/d)) for n, d > 0. -/
def log10Floor (n d : Nat) : Int :=
  let a : Int := (natLog10 n : Int) - (natLog10 d : Int)
  let lt10e : Int → Bool := fun e =>
    if e ≥ 0 then n < d * 10 ^ e.toNat else n * 10 ^ (-e).toNat < d
  if lt10e a then a - 1 else a

/-- Round num/den to the nearest integer, ties to even. -/
def rneNat (num den : Nat) : Nat :=
  let q := num / den
  let r := num % den
  if 2 * r > den then q + 1
  else if 2 * r < den then q
  else if q % 2 == 0 then q else q + 1

/-- The positive rational n/d rounded to p significant decimal digits:
returns (digit value m with p digits, decimal exponent k of the leading
digit). -/
def sigRound (n d p : Nat) : Nat × Int :=
  let k := log10Floor n d
  let shift : Int := (p : Int) - 1 - k
  let m :=
    if shift ≥ 0 then rneNat (n * 10 ^ shift.toNat) d
    else rneNat n (d * 10 ^ (-shift).toNat)
  if m == 10 ^ p then (10 ^ (p - 1), k + 1) else (m, k)

/-- Render digit value m (p digits) with leading-digit exponent k in
plain decimal notation, stripping trailing fractional zeros. -/
def renderDec (m : Nat) (p : Nat) (k : Int) : String :=
  let ds := toString m
  if k ≥ (p : Int) - 1 then
    -- integral: pad with k - (p-1) zeros
    ds ++ String.mk (List.replicate (k - ((p : Int) - 1)).toNat '0')
  else
    let stripped := (ds.toList.reverse.dropWhile (fun c => c == '0')).reverse
    if k ≥ 0 then
      let intLen := k.toNat + 1
      if stripped.length ≤ intLen then
        String.mk (stripped ++ List.replicate (intLen - stripped.length) '0')
      else
        String.mk (stripped.take intLen) ++ "." ++ String.mk (stripped.drop intLen)
    else
      "0." ++ String.mk (List.replicate ((-k).toNat - 1) '0') ++ String.mk stripped

/-- The rational value denoted by (m, p, k). -/
def decValue (m : Nat) (p : Nat) (k : Int) : Frac :=
  let shift : Int := (p : Int) - 1 - k
  if shift ≥ 0 then ⟨m, 10 ^ shift.toNat⟩ else ⟨(m : Int) * 10 ^ (-shift).toNat, 1⟩

/-- Shortest decimal rendering of a positive finite f64 (bit pattern b)
that round-trips, searched by increasing precision (17 digits always
suffice for binary64). -/
def f64ShortestDec (b : Nat) : String :=
  let q := f64ToFrac b
  let n := q.num.toNat
  let d := q.den
  let try1 : Nat → Option String := fun p =>
    let (m, k) := sigRound n d p
    if roundF64 (decValue m p k) == b then some (renderDec m p k) else none
  let rec search : Nat → Nat → String
    | 0, p => let (m, k) := sigRound n d p; renderDec m p k
    | fuel + 1, p =>
      match try1 p with
      | some s => s
      | none => search fuel (p + 1)
  search 17 1

/-- Rust `Display` for `f64` (`format!("{}", f)`): "NaN", "inf"/"-inf",
"-0" for the negative zero, else the shortest round-tripping decimal. -/
def rustF64Display (b : Nat) : String :=
  if f64IsNan b then "NaN"
  else if f64IsInf b then (if f64Sign b then "-inf" else "inf")
  else if f64IsZero b then (if f64Sign b then "-0" else "0")
  else if f64Sign b then "-" ++ f64ShortestDec (f64Abs b)
  else f64ShortestDec b

/-- Rust `Debug` for `f64` (`format!("{:?}", f)`): like `Display` but a
finite value always keeps a decimal point ("1.0"). -/
def rustF64Debug (b : Nat) : String :=
  let s := rustF64Display b
  if f64IsNan b || f64IsInf b then s
  else if s.contains '.' then s else s ++ ".0"

/-- Rust `Debug` for strings: quoted, with the common escapes.
(Exotic `escape_debug` cases — unicode control characters — are passed
through unescaped in this model.) -/
def strDebug (s : String) : String :=
  "\"" ++ String.join (s.toList.map (fun c =>
    if c == '\\' then "\\\\"
    else if c == '"' then "\\\""
    else if c == '\n' then "\\n"
    else if c == '\t' then "\\t"
    else if c == '\r' then "\\r"
    else String.mk [c])) ++ "\""

/-- `Display` for `Literal` (impl fmt::Display for Literal): strings are
re-quoted, floats use the plain `{}` rendering. -/
def litDisplay : Lit → String
  | .int i => toString i
  | .float b => rustF64Display b
  | .bool b => toString b
  | .str s => "\"" ++ s ++ "\""

/-- Derived `Debug` for `Literal`. -/
def litDebug : Lit → String
  | .int i => "Integer(" ++ toString i ++ ")"
  | .float b => "Float(" ++ rustF64Debug b ++ ")"
  | .bool b => "Boolean(" ++ toString b ++ ")"
  | .str s => "String(" ++ strDebug s ++ ")"

/-- Comma-space join. -/
def commaJoin (ss : List String) : String := String.intercalate ", " ss

mutual

/-- Derived `Debug` for `TypeExpr` (locations print as None in this
location-free embedding). -/
def typeExprDebug : BTypeExpr → String
  | .name s => "Name(" ++ strDebug s ++ ", None)"
  | .tvar s => "Variable(" ++ strDebug s ++ ", None)"
  | .func a b => "Function(" ++ typeExprDebug a ++ ", " ++ typeExprDebug b ++ ", None)"
  | .linearFunc a b => "LinearFunction(" ++ typeExprDebug a ++ ", " ++ typeExprDebug b ++ ", None)"
  | .product a b => "Product(" ++ typeExprDebug a ++ ", " ++ typeExprDebug b ++ ", None)"
  | .sum a b => "Sum(" ++ typeExprDebug a ++ ", " ++ typeExprDebug b ++ ", None)"
  | .map a b => "Map(" ++ typeExprDebug a ++ ", " ++ typeExprDebug b ++ ", None)"
  | .list a => "List(" ++ typeExprDebug a ++ ", None)"
  | .set a => "Set(" ++ typeExprDebug a ++ ", None)"
  | .option a => "Option(" ++ typeExprDebug a ++ ", None)"
  | .linear a => "Linear(" ++ typeExprDebug a ++ ", None)"
  | .sequence a => "Sequence(" ++ typeExprDebug a ++ ", None)"
  | .universal => "Universal(None)"
  | .void => "Void(None)"

end

mutual

/-- Derived `Debug` for `Pattern` (locations print as None). -/
def patternDebug : BPattern → String
  | .pvar s => "Variable(" ++ strDebug s ++ ", None)"
  | .lit l => "Literal(" ++ litDebug l ++ ", None)"
  | .wildcard => "Wildcard(None)"
  | .list ps => "List([" ++ commaJoin (patternDebugList ps) ++ "], None)"
  | .set ps => "Set([" ++ commaJoin (patternDebugList ps) ++ "], None)"
  | .map ps =>
    "Map(\x7b" ++ commaJoin (patternDebugMap ps) ++ "\x7d, None)"
  | .typeAnnotated p t =>
    "TypeAnnotated(" ++ patternDebug p ++ ", " ++ typeExprDebug t ++ ", None)"

/-- Debug strings of every pattern in a list. -/
def patternDebugList : List BPattern → List String
  | [] => []
  | p :: ps => patternDebug p :: patternDebugList ps

/-- Debug strings of every map entry. -/
def patternDebugMap : List (String × BPattern) → List String
  | [] => []
  | (k, p) :: rest => (strDebug k ++ ": " ++ patternDebug p) :: patternDebugMap rest

end

mutual

/-- `Display` for `Expr` (impl fmt::Display for Expr). -/
def exprDisplay : BExpr → String
  | .lit l => litDisplay l
  | .evar s => s
  | .qualifiedName parts => String.intercalate "::" parts
  | .lam params body =>
    "(lambda (" ++ String.intercalate " " (patternDebugList params) ++ ") "
      ++ exprDisplay body ++ ")"
  | .app f args => "(" ++ exprDisplay f ++ exprDisplayArgs args ++ ")"
  | .letE p v body =>
    "(let ((" ++ patternDebug p ++ ") " ++ exprDisplay v ++ ") "
      ++ exprDisplay body ++ ")"
  | .ifE c t e =>
    "(if " ++ exprDisplay c ++ " " ++ exprDisplay t ++ " " ++ exprDisplay e ++ ")"
  | .binaryOp op l r =>
    "(" ++ op ++ " " ++ exprDisplay l ++ " " ++ exprDisplay r ++ ")"
  | .unaryOp op o => "(" ++ op ++ " " ++ exprDisplay o ++ ")"
  | .list items => "(list" ++ exprDisplayArgs items ++ ")"
  | .set items => "(set" ++ exprDisplayArgs items ++ ")"
  | .map entries => "(map" ++ exprDisplayMap entries ++ ")"
  | .quote e => "(quote " ++ exprDisplay e ++ ")"
  | .unquote e => "~" ++ exprDisplay e
  | .unquoteSplice e => "~@" ++ exprDisplay e
  | .quasiquote e => "`" ++ exprDisplay e

/-- " item" for every list element. -/
def exprDisplayArgs : List BExpr → String
  | [] => ""
  | e :: es => " " ++ exprDisplay e ++ exprDisplayArgs es

/-- " (key_debug value)" for every map entry. -/
def exprDisplayMap : List (String × BExpr) → String
  | [] => ""
  | (k, v) :: rest => " (" ++ strDebug k ++ " " ++ exprDisplay v ++ ")" ++ exprDisplayMap rest

end

mutual

/-- `Display` for `Value` (impl fmt::Display for Value). -/
def valueDisplay : BValue → String
  | .integer i => toString i
  | .float b =>
    if f64IsNan b then "NaN"
    else if f64IsInf b then (if f64Sign b then "-Infinity" else "Infinity")
    else rustF64Display b
  | .bool b => toString b
  | .str s => "\"" ++ s ++ "\""
  | .symbol s => s
  | .list vs => "(list" ++ valueDisplayArgs vs ++ ")"
  | .map entries => "\x7b" ++ valueDisplayMap true entries ++ "\x7d"
  | .set elems => "#\x7b" ++ valueDisplaySet true elems ++ "\x7d"
  | .function _ => "<function>"
  | .module name => "<module:" ++ name ++ ">"
  | .quote e => "'" ++ exprDisplay e
  | .null => "null"
  | .void => "void"

/-- " v" for every list element. -/
def valueDisplayArgs : List BValue → String
  | [] => ""
  | v :: vs => " " ++ valueDisplay v ++ valueDisplayArgs vs

/-- "k: v" comma-separated map body. -/
def valueDisplayMap : Bool → List (BValue × BValue) → String
  | _, [] => ""
  | first, (k, v) :: rest =>
    (if first then "" else ", ") ++ valueDisplay k ++ ": " ++ valueDisplay v
      ++ valueDisplayMap false rest

/-- "k" comma-separated set body. -/
def valueDisplaySet : Bool → List BValue → String
  | _, [] => ""
  | first, k :: rest =>
    (if first then "" else ", ") ++ valueDisplay k ++ valueDisplaySet false rest

end

/-! ## Native primitives (apply_native_function)

Unchecked i64 arithmetic (`a - b`, `a * b`) panics on overflow in a
debug build, which is how the repository's tests run; those panics are
the `ROut.panic` outcome.  Division and remainder overflow
(`i64::MIN / -1`, `i64::MIN % -1`) panic in every build profile. -/

/-- "Unsupported types: {}, {}" message. -/
def unsupportedTypes (a b : BValue) : String :=
  "Unsupported types: " ++ a.typeName ++ ", " ++ b.typeName

/-- "Cannot compare types: {}, {}" message. -/
def cannotCompare (a b : BValue) : String :=
  "Cannot compare types: " ++ a.typeName ++ ", " ++ b.typeName

/-- A `TypeError` naming the expected type and the offending value. -/
def typeErr (expected : String) (v : BValue) : EvalError :=
  .typeError expected v.typeName (valueDisplay v)

/-- Dispatcher for native function calls (apply_native_function). -/
def applyNative (name : String) (args : List BValue) : ROut BValue :=
  match name with
  | "print" => .ok .void
  | "+" =>
    match args with
    | [a, b] =>
      match a, b with
      | .integer x, .integer y =>
        -- checked_add
        if inI64 (x + y) then .ok (.integer (x + y))
        else .err (.invalidOperation "Integer overflow in +")
      | .float x, .float y => .ok (.float (f64Add x y))
      | .float x, .integer y => .ok (.float (f64Add x (i64ToF64 y)))
      | .integer x, .float y => .ok (.float (f64Add (i64ToF64 x) y))
      | .str x, .str y => .ok (.str (x ++ y))
      | _, _ => .err (.invalidArguments "+" (unsupportedTypes a b))
    | _ => .err (.arityMismatch "+" "2" args.length)
  | "-" =>
    match args with
    | [a, b] =>
      match a, b with
      | .integer x, .integer y =>
        -- plain `a - b`: debug-build panic on overflow
        if inI64 (x - y) then .ok (.integer (x - y))
        else .panic "attempt to subtract with overflow"
      | .float x, .float y => .ok (.float (f64Sub x y))
      | .float x, .integer y => .ok (.float (f64Sub x (i64ToF64 y)))
      | .integer x, .float y => .ok (.float (f64Sub (i64ToF64 x) y))
      | _, _ => .err (.invalidArguments "-" (unsupportedTypes a b))
    | _ => .err (.arityMismatch "-" "2" args.length)
  | "*" =>
    match args with
    | [a, b] =>
      match a, b with
      | .integer x, .integer y =>
        -- plain `a * b`: debug-build panic on overflow
        if inI64 (x * y) then .ok (.integer (x * y))
        else .panic "attempt to multiply with overflow"
      | .float x, .float y => .ok (.float (f64Mul x y))
      | .float x, .integer y => .ok (.float (f64Mul x (i64ToF64 y)))
      | .integer x, .float y => .ok (.float (f64Mul (i64ToF64 x) y))
      | _, _ => .err (.invalidArguments "*" (unsupportedTypes a b))
    | _ => .err (.arityMismatch "*" "2" args.length)
  | "/" =>
    match args with
    | [a, b] =>
      -- the (_, Integer(0)) and near-zero-float guards come first
      match a, b with
      | _, .integer 0 => .err .divisionByZero
      | _, .float y =>
        if f64Lt (f64Abs y) f64EpsilonBits then .err .divisionByZero
        else
          match a with
          | .float x => .ok (.float (f64Div x y))
          | .integer x => .ok (.float (f64Div (i64ToF64 x) y))
          | _ => .err (.invalidArguments "/" (unsupportedTypes a b))
      | .integer x, .integer y =>
        -- plain `a / b`: truncating division, panics on i64::MIN / -1
        if x == i64Min && y == -1 then .panic "attempt to divide with overflow"
        else .ok (.integer (Int.tdiv x y))
      | .float x, .integer y => .ok (.float (f64Div x (i64ToF64 y)))
      | _, _ => .err (.invalidArguments "/" (unsupportedTypes a b))
    | _ => .err (.arityMismatch "/" "2" args.length)
  | "==" =>
    match args with
    | [a, b] => .ok (.bool (valueEq a b))
    | _ => .err (.arityMismatch "==" "2" args.length)
  | "!=" =>
    match args with
    | [a, b] => .ok (.bool (!valueEq a b))
    | _ => .err (.arityMismatch "!=" "2" args.length)
  | "<" =>
    match args with
    | [a, b] =>
      match a, b with
      | .integer x, .integer y => .ok (.bool (x < y))
      | .float x, .float y => .ok (.bool (f64Lt x y))
      | .float x, .integer y => .ok (.bool (f64Lt x (i64ToF64 y)))
      | .integer x, .float y => .ok (.bool (f64Lt (i64ToF64 x) y))
      | .str x, .str y => .ok (.bool (x < y))
      | _, _ => .err (.invalidArguments "<" (cannotCompare a b))
    | _ => .err (.arityMismatch "<" "2" args.length)
  | ">" =>
    match args with
    | [a, b] =>
      match a, b with
      | .integer x, .integer y => .ok (.bool (x > y))
      | .float x, .float y => .ok (.bool (f64Lt y x))
      | .float x, .integer y => .ok (.bool (f64Lt (i64ToF64 y) x))
      | .integer x, .float y => .ok (.bool (f64Lt y (i64ToF64 x)))
      | .str x, .str y => .ok (.bool (x > y))
      | _, _ => .err (.invalidArguments ">" (cannotCompare a b))
    | _ => .err (.arityMismatch ">" "2" args.length)
  | "<=" =>
    match args with
    | [a, b] =>
      match a, b with
      | .integer x, .integer y => .ok (.bool (x ≤ y))
      | .float x, .float y => .ok (.bool (f64Le x y))
      | .float x, .integer y => .ok (.bool (f64Le x (i64ToF64 y)))
      | .integer x, .float y => .ok (.bool (f64Le (i64ToF64 x) y))
      | .str x, .str y => .ok (.bool (x ≤ y))
      | _, _ => .err (.invalidArguments "<=" (cannotCompare a b))
    | _ => .err (.arityMismatch "<=" "2" args.length)
  | ">=" =>
    match args with
    | [a, b] =>
      match a, b with
      | .integer x, .integer y => .ok (.bool (x ≥ y))
      | .float x, .float y => .ok (.bool (f64Le y x))
      | .float x, .integer y => .ok (.bool (f64Le (i64ToF64 y) x))
      | .integer x, .float y => .ok (.bool (f64Le y (i64ToF64 x)))
      | .str x, .str y => .ok (.bool (x ≥ y))
      | _, _ => .err (.invalidArguments ">=" (cannotCompare a b))
    | _ => .err (.arityMismatch ">=" "2" args.length)
  | "and" =>
    match args with
    | [a, b] =>
      match a with
      | .bool x =>
        match b with
        | .bool y => .ok (.bool (x && y))
        | _ => .err (typeErr "Boolean" b)
      | _ => .err (typeErr "Boolean" a)
    | _ => .err (.arityMismatch "and" "2" args.length)
  | "or" =>
    match args with
    | [a, b] =>
      match a with
      | .bool x =>
        match b with
        | .bool y => .ok (.bool (x || y))
        | _ => .err (typeErr "Boolean" b)
      | _ => .err (typeErr "Boolean" a)
    | _ => .err (.arityMismatch "or" "2" args.length)
  | "not" =>
    match args with
    | [a] =>
      match a with
      | .bool x => .ok (.bool (!x))
      | _ => .err (typeErr "Boolean" a)
    | _ => .err (.arityMismatch "not" "1" args.length)
  | "mod" =>
    match args with
    | [a, b] =>
      match a with
      | .integer x =>
        match b with
        | .integer y =>
          if y == 0 then .err .divisionByZero
          else if x == i64Min && y == -1 then
            .panic "attempt to calculate the remainder with overflow"
          else .ok (.integer (Int.tmod x y))
        | _ => .err (typeErr "Integer" b)
      | _ => .err (typeErr "Integer" a)
    | _ => .err (.arityMismatch "mod" "2" args.length)
  | "cons" =>
    match args with
    | [a, b] =>
      match b with
      | .list tail => .ok (.list (a :: tail))
      | _ => .err (typeErr "List" b)
    | _ => .err (.arityMismatch "cons" "2" args.length)
  | "car" =>
    match args with
    | [a] =>
      match a with
      | .list [] => .err (.invalidArguments "car" "Cannot take car of empty list")
      | .list (v :: _) => .ok v
      | _ => .err (typeErr "List" a)
    | _ => .err (.arityMismatch "car" "1" args.length)
  | "cdr" =>
    match args with
    | [a] =>
      match a with
      | .list [] => .err (.invalidArguments "cdr" "Cannot take cdr of empty list")
      | .list (_ :: rest) => .ok (.list rest)
      | _ => .err (typeErr "List" a)
    | _ => .err (.arityMismatch "cdr" "1" args.length)
  | "list" => .ok (.list args)
  | "typeof" =>
    match args with
    | [a] => .ok (.symbol a.typeName)
    | _ => .err (.arityMismatch "typeof" "1" args.length)
  | "null?" =>
    match args with
    | [a] =>
      .ok (.bool (match a with
        | .list l => l.isEmpty
        | .null => true
        | _ => false))
    | _ => .err (.arityMismatch "null?" "1" args.length)
  | "len" =>
    match args with
    | [a] =>
      match a with
      | .list l => .ok (.integer l.length)
      | .str s => .ok (.integer s.length)
      | .map m => .ok (.integer m.length)
      | .set s => .ok (.integer s.length)
      | _ => .err (typeErr "List, String, Map, or Set" a)
    | _ => .err (.arityMismatch "len" "1" args.length)
  | "integer?" =>
    match args with
    | [a] => .ok (.bool (match a with | .integer _ => true | _ => false))
    | _ => .err (.arityMismatch "integer?" "1" args.length)
  | "float?" =>
    match args with
    | [a] => .ok (.bool (match a with | .float _ => true | _ => false))
    | _ => .err (.arityMismatch "float?" "1" args.length)
  | "boolean?" =>
    match args with
    | [a] => .ok (.bool (match a with | .bool _ => true | _ => false))
    | _ => .err (.arityMismatch "boolean?" "1" args.length)
  | "string?" =>
    match args with
    | [a] => .ok (.bool (match a with | .str _ => true | _ => false))
    | _ => .err (.arityMismatch "string?" "1" args.length)
  | "symbol?" =>
    match args with
    | [a] => .ok (.bool (match a with | .symbol _ => true | _ => false))
    | _ => .err (.arityMismatch "symbol?" "1" args.length)
  | "list?" =>
    match args with
    | [a] => .ok (.bool (match a with | .list _ => true | _ => false))
    | _ => .err (.arityMismatch "list?" "1" args.length)
  | "map?" =>
    match args with
    | [a] => .ok (.bool (match a with | .map _ => true | _ => false))
    | _ => .err (.arityMismatch "map?" "1" args.length)
  | "set?" =>
    match args with
    | [a] => .ok (.bool (match a with | .set _ => true | _ => false))
    | _ => .err (.arityMismatch "set?" "1" args.length)
  | "function?" =>
    match args with
    | [a] => .ok (.bool (match a with | .function _ => true | _ => false))
    | _ => .err (.arityMismatch "function?" "1" args.length)
  | "primitive?" =>
    match args with
    | [a] =>
      .ok (.bool (match a with | .function (.native _) => true | _ => false))
    | _ => .err (.arityMismatch "primitive?" "1" args.length)
  | _ => .err (.invalidOperation ("Unknown native function: " ++ name))

/-! ## Pattern binding (bind_pattern) -/

/-- `HashMap::get` on a value-keyed map: the entry whose key is equal
(by runtime value equality) to `k`. -/
def mapGet (k : BValue) : List (BValue × BValue) → Option BValue
  | [] => none
  | (k', v') :: rest => if valueEq k k' then some v' else mapGet k rest

/-- `bindings.extend(temp_bindings)`: insert every entry. -/
def bindingsExtend (bs temp : List (String × BValue)) : List (String × BValue) :=
  temp.foldl (fun acc kv => bindingsInsert acc kv.1 kv.2) bs

mutual

/-- `bind_pattern`: match a pattern against a value, threading the
bindings map; returns whether the match succeeded, or an error. -/
def bindPattern (pat : BPattern) (value : BValue) (bindings : List (String × BValue)) :
    ROut (Bool × List (String × BValue)) :=
  match pat with
  | .lit l =>
    match l, value with
    | .int i, .integer v => .ok (i == v, bindings)
    | .float f, .float v => .ok (f64Eq f v, bindings)
    | .str s, .str v => .ok (s == v, bindings)
    | .bool b, .bool v => .ok (b == v, bindings)
    | _, _ => .ok (false, bindings)
  | .wildcard => .ok (true, bindings)
  | .pvar name => .ok (true, bindingsInsert bindings name value)
  | .list listPat =>
    match value with
    | .list listVal =>
      if listPat.length != listVal.length then .ok (false, bindings)
      else
        match bindPatternList listPat listVal [] with
        | .ok (true, temp) => .ok (true, bindingsExtend bindings temp)
        | .ok (false, _) => .ok (false, bindings)
        | .err e => .err e
        | .panic m => .panic m
    | _ => .ok (false, bindings)
  | .set setPat =>
    match value with
    | .set setVal =>
      if setPat.length != setVal.length then .ok (false, bindings)
      else .err (.invalidOperation "Set pattern matching not fully implemented")
    | _ => .ok (false, bindings)
  | .map mapPat =>
    match value with
    | .map mapVal =>
      if mapPat.length != mapVal.length then .ok (false, bindings)
      else
        match bindPatternMapEntries mapPat mapVal [] with
        | .ok (true, temp) => .ok (true, bindingsExtend bindings temp)
        | .ok (false, _) => .ok (false, bindings)
        | .err e => .err e
        | .panic m => .panic m
    | _ => .ok (false, bindings)
  | .typeAnnotated inner _ => bindPattern inner value bindings

/-- The element loop of the List pattern case (`iter().zip(...)`,
lengths already checked equal). -/
def bindPatternList (ps : List BPattern) (vs : List BValue)
    (bindings : List (String × BValue)) : ROut (Bool × List (String × BValue)) :=
  match ps, vs with
  | p :: ps', v :: vs' =>
    match bindPattern p v bindings with
    | .ok (true, b') => bindPatternList ps' vs' b'
    | .ok (false, _) => .ok (false, bindings)
    | .err e => .err e
    | .panic m => .panic m
  | _, _ => .ok (true, bindings)

/-- The entry loop of the Map pattern case. -/
def bindPatternMapEntries (entries : List (String × BPattern))
    (mapVal : List (BValue × BValue)) (bindings : List (String × BValue)) :
    ROut (Bool × List (String × BValue)) :=
  match entries with
  | [] => .ok (true, bindings)
  | (keyStr, patVal) :: rest =>
    let keyValue : BValue := .str keyStr
    if !isHashable keyValue then
      .err (.hashingError (valueDisplay keyValue) keyValue.typeName)
    else
      match mapGet keyValue mapVal with
      | some valVal =>
        match bindPattern patVal valVal bindings with
        | .ok (true, b') => bindPatternMapEntries rest mapVal b'
        | .ok (false, _) => .ok (false, bindings)
        | .err e => .err e
        | .panic m => .panic m
      | none => .ok (false, bindings)

end

/-! ## Quasiquote support conversions -/

/-- `convert_literal_to_value`. -/
def convertLiteralToValue : Lit → BValue
  | .int i => .integer i
  | .float f => .float f
  | .str s => .str s
  | .bool b => .bool b

/-- `eval_literal` (identical mapping, separate function in the source). -/
def evalLiteral (l : Lit) : ROut BValue := .ok (convertLiteralToValue l)

/-- `FxHashMap<Value, ()>` insert: an equal key is already present, the
set is unchanged (the original key is kept); otherwise append. -/
def setInsert (k : BValue) (s : List BValue) : List BValue :=
  if setContains k s then s else s ++ [k]

/-- `FxHashMap<Value, Value>` insert: replace the value of an equal key
(keeping the original key), else append. -/
def mapInsert (k v : BValue) (m : List (BValue × BValue)) : List (BValue × BValue) :=
  if (m.find? (fun kv => valueEq k kv.1)).isSome then
    m.map (fun kv => if valueEq k kv.1 then (kv.1, v) else kv)
  else m ++ [(k, v)]

mutual

/-- `convert_pattern_to_value`: reify a pattern as data for quasiquote. -/
def convertPatternToValue : BPattern → ROut BValue
  | .pvar name => .ok (.symbol name)
  | .lit l => .ok (convertLiteralToValue l)
  | .wildcard => .ok (.symbol "_")
  | .list ps =>
    match convertPatternListToValues ps with
    | .ok vs => .ok (.list vs)
    | .err e => .err e
    | .panic m => .panic m
  | .set ps =>
    match convertPatternSetToValues ps [] with
    | .ok s => .ok (.set s)
    | .err e => .err e
    | .panic m => .panic m
  | .map ps =>
    match convertPatternMapToValues ps [] with
    | .ok m => .ok (.map m)
    | .err e => .err e
    | .panic m => .panic m
  | .typeAnnotated inner _ => convertPatternToValue inner

/-- List case loop of `convert_pattern_to_value`. -/
def convertPatternListToValues : List BPattern → ROut (List BValue)
  | [] => .ok []
  | p :: ps =>
    match convertPatternToValue p with
    | .ok v =>
      match convertPatternListToValues ps with
      | .ok vs => .ok (v :: vs)
      | .err e => .err e
      | .panic m => .panic m
    | .err e => .err e
    | .panic m => .panic m

/-- Set case loop of `convert_pattern_to_value` (hashability checked
per element). -/
def convertPatternSetToValues : List BPattern → List BValue → ROut (List BValue)
  | [], acc => .ok acc
  | p :: ps, acc =>
    match convertPatternToValue p with
    | .ok v =>
      if !isHashable v then .err (.hashingError (valueDisplay v) v.typeName)
      else convertPatternSetToValues ps (setInsert v acc)
    | .err e => .err e
    | .panic m => .panic m

/-- Map case loop of `convert_pattern_to_value` (keys become Symbols). -/
def convertPatternMapToValues :
    List (String × BPattern) → List (BValue × BValue) → ROut (List (BValue × BValue))
  | [], acc => .ok acc
  | (keyStr, patVal) :: ps, acc =>
    let keyValue : BValue := .symbol keyStr
    if !isHashable keyValue then
      .err (.hashingError (valueDisplay keyValue) keyValue.typeName)
    else
      match convertPatternToValue patVal with
      | .ok v => convertPatternMapToValues ps (mapInsert keyValue v acc)
      | .err e => .err e
      | .panic m => .panic m

end


/-! ## The evaluator (eval / apply_function / evaluate_quasiquote)

The Rust functions recurse through closure bodies, so the embedding is
fuelled: `none` means the fuel ran out; every claim is stated either for
all sufficient fuel or at an explicit fuel that suffices.  Every
recursive call consumes one unit of fuel. -/

/-- Monadic composition over fuelled Rust outcomes (`?` propagation plus
panic propagation; `none` = out of fuel). -/
def rbind {a b : Type} (x : Option (ROut a)) (f : a → Option (ROut b)) :
    Option (ROut b) :=
  match x with
  | none => none
  | some (.err e) => some (.err e)
  | some (.panic m) => some (.panic m)
  | some (.ok v) => f v

/-- The parameter-binding loop of `apply_function` (parameters zipped
with arguments; a non-matching pattern is an immediate
`PatternMatchFailed`). -/
def bindPatternArgs : List BPattern → List BValue → List (String × BValue) →
    ROut (List (String × BValue))
  | p :: ps, v :: vs, bindings =>
    match bindPattern p v bindings with
    | .ok (true, b') => bindPatternArgs ps vs b'
    | .ok (false, _) => .err (.patternMatchFailed (valueDisplay v) (patternDebug p))
    | .err e => .err e
    | .panic m => .panic m
  | _, _, bindings => .ok bindings

/-- Define every binding of a map into an environment frame. -/
def defineAll (env : BEnvData) (bindings : List (String × BValue)) : BEnvData :=
  bindings.foldl (fun e kv => envDefine e kv.1 kv.2) env

/-- The Set-into-Set splice loop of `evaluate_quasiquote`. -/
def setSpliceSet : List BValue → List BValue → ROut (List BValue)
  | [], acc => .ok acc
  | k :: ks, acc =>
    if !isHashable k then .err (.quasiquoteError "~@ Set in Set requires hashable elements")
    else setSpliceSet ks (setInsert k acc)

/-- The List-into-Set splice loop of `evaluate_quasiquote`. -/
def setSpliceList : List BValue → List BValue → ROut (List BValue)
  | [], acc => .ok acc
  | k :: ks, acc =>
    if !isHashable k then .err (.quasiquoteError "~@ List into Set requires hashable elements")
    else setSpliceList ks (setInsert k acc)

mutual

/-- `eval`: the main recursive evaluation function. -/
def eval : Nat → BExpr → BEnvData → Option (ROut BValue)
  | 0, _, _ => none
  | n + 1, expr, env =>
    match expr with
    | .lit l => some (evalLiteral l)
    | .evar name =>
      match envLookup env name with
      | some v => some (.ok v)
      | none => some (.err (.unboundVariable name))
    | .qualifiedName parts =>
      let name := String.intercalate "::" parts
      match envLookup env name with
      | some v => some (.ok v)
      | none => some (.err (.unboundVariable name))
    | .set elements => rbind (evalSetElems n elements env []) (fun s => some (.ok (.set s)))
    | .list elements => rbind (evalList n elements env) (fun vs => some (.ok (.list vs)))
    | .map entries => rbind (evalMapEntries n entries env []) (fun m => some (.ok (.map m)))
    | .lam params body => some (.ok (.function (.closure params body env)))
    | .app f args =>
      rbind (eval n f env) (fun fv =>
        rbind (evalList n args env) (fun avs => applyFunction n fv avs))
    | .letE pat vexpr body =>
      rbind (eval n vexpr env) (fun v =>
        let letEnv := envExtend env
        match bindPattern pat v [] with
        | .ok (true, bindings) => eval n body (defineAll letEnv bindings)
        | .ok (false, _) =>
          some (.err (.patternMatchFailed (valueDisplay v) (patternDebug pat)))
        | .err e => some (.err e)
        | .panic m => some (.panic m))
    | .ifE c t e =>
      rbind (eval n c env) (fun cv =>
        match cv with
        | .bool true => eval n t env
        | .bool false => eval n e env
        | other => some (.err (typeErr "Boolean" other)))
    | .binaryOp op l r =>
      if op == "|>" then
        rbind (eval n l env) (fun lv =>
          rbind (eval n r env) (fun fv => applyFunction n fv [lv]))
      else
        rbind (eval n l env) (fun lv =>
          rbind (eval n r env) (fun rv =>
            match envLookup env op with
            | some (.function f) => applyFunction n (.function f) [lv, rv]
            | some other => some (.err (.notAFunction (valueDisplay other)))
            | none => some (applyNative op [lv, rv])))
    | .unaryOp op o =>
      rbind (eval n o env) (fun ov =>
        match envLookup env op with
        | some (.function f) => applyFunction n (.function f) [ov]
        | some other => some (.err (.notAFunction (valueDisplay other)))
        | none => some (applyNative op [ov]))
    | .quote inner => some (.ok (.quote inner))
    | .unquote _ =>
      some (.err (.quasiquoteError
        "Unquote (\x27~\x27) is only valid inside a quasiquote (\x27`\x27)"))
    | .unquoteSplice _ =>
      some (.err (.quasiquoteError
        "Unquote-splice (\x27~@\x27) is only valid inside a quasiquote (\x27`\x27)"))
    | .quasiquote inner => evalQuasi n inner env

/-- The argument-list loop of `eval` (left to right). -/
def evalList : Nat → List BExpr → BEnvData → Option (ROut (List BValue))
  | 0, _, _ => none
  | _ + 1, [], _ => some (.ok [])
  | n + 1, e :: es, env =>
    rbind (eval n e env) (fun v =>
      rbind (evalList n es env) (fun vs => some (.ok (v :: vs))))

/-- The element loop of Set literal evaluation (hashability checked per
element before insertion). -/
def evalSetElems : Nat → List BExpr → BEnvData → List BValue → Option (ROut (List BValue))
  | 0, _, _, _ => none
  | _ + 1, [], _, acc => some (.ok acc)
  | n + 1, e :: es, env, acc =>
    rbind (eval n e env) (fun v =>
      if !isHashable v then some (.err (.hashingError (valueDisplay v) v.typeName))
      else evalSetElems n es env (setInsert v acc))

/-- The entry loop of Map literal evaluation (keys are String values,
checked hashable before the value is evaluated). -/
def evalMapEntries : Nat → List (String × BExpr) → BEnvData →
    List (BValue × BValue) → Option (ROut (List (BValue × BValue)))
  | 0, _, _, _ => none
  | _ + 1, [], _, acc => some (.ok acc)
  | n + 1, (keyStr, vexpr) :: es, env, acc =>
    let keyValue : BValue := .str keyStr
    if !isHashable keyValue then
      some (.err (.hashingError (valueDisplay keyValue) keyValue.typeName))
    else
      rbind (eval n vexpr env) (fun v => evalMapEntries n es env (mapInsert keyValue v acc))

/-- `apply_function`: apply a function value to evaluated arguments. -/
def applyFunction : Nat → BValue → List BValue → Option (ROut BValue)
  | 0, _, _ => none
  | n + 1, func, args =>
    match func with
    | .function (.closure params body capturedEnv) =>
      if params.length != args.length then
        some (.err (.arityMismatch "Closure" (toString params.length) args.length))
      else
        match bindPatternArgs params args [] with
        | .ok bindings => eval n body (defineAll (envExtend capturedEnv) bindings)
        | .err e => some (.err e)
        | .panic m => some (.panic m)
    | .function (.native name) => some (applyNative name args)
    | other => some (.err (.notAFunction (valueDisplay other)))

/-- `evaluate_quasiquote`: reify the expression as data, evaluating
Unquote nodes and splicing UnquoteSplice nodes. -/
def evalQuasi : Nat → BExpr → BEnvData → Option (ROut BValue)
  | 0, _, _ => none
  | n + 1, expr, env =>
    match expr with
    | .lit l => some (.ok (convertLiteralToValue l))
    | .evar name => some (.ok (.symbol name))
    | .qualifiedName parts => some (.ok (.symbol (String.intercalate "::" parts)))
    | .list items =>
      rbind (evalQuasiListItems n items env []) (fun vs => some (.ok (.list vs)))
    | .set items =>
      rbind (evalQuasiSetItems n items env []) (fun s => some (.ok (.set s)))
    | .map entries =>
      rbind (evalQuasiMapEntries n entries env []) (fun m => some (.ok (.map m)))
    | .unquote inner => eval n inner env
    | .unquoteSplice _ =>
      some (.err (.quasiquoteError
        "Unquote-splice (~@) cannot be at the top level of a quasiquote"))
    | .binaryOp op l r =>
      rbind (evalQuasi n l env) (fun lv =>
        rbind (evalQuasi n r env) (fun rv =>
          some (.ok (.list [.symbol op, lv, rv]))))
    | .unaryOp op o =>
      rbind (evalQuasi n o env) (fun ov => some (.ok (.list [.symbol op, ov])))
    | .ifE c t e =>
      rbind (evalQuasi n c env) (fun cv =>
        rbind (evalQuasi n t env) (fun tv =>
          rbind (evalQuasi n e env) (fun ev =>
            some (.ok (.list [.symbol "if", cv, tv, ev])))))
    | .letE pat v body =>
      match convertPatternToValue pat with
      | .ok pv =>
        rbind (evalQuasi n v env) (fun vv =>
          rbind (evalQuasi n body env) (fun bv =>
            some (.ok (.list [.symbol "let", pv, vv, bv]))))
      | .err e => some (.err e)
      | .panic m => some (.panic m)
    | .lam params body =>
      match convertPatternListToValues params with
      | .ok pvs =>
        rbind (evalQuasi n body env) (fun bv =>
          some (.ok (.list [.symbol "lambda", .list pvs, bv])))
      | .err e => some (.err e)
      | .panic m => some (.panic m)
    | .app f args =>
      rbind (evalQuasi n f env) (fun fv =>
        rbind (evalQuasiArgs n args env) (fun avs =>
          some (.ok (.list (fv :: avs)))))
    | .quote inner =>
      rbind (evalQuasi n inner env) (fun iv => some (.ok (.list [.symbol "quote", iv])))
    | .quasiquote inner =>
      rbind (evalQuasi n inner env) (fun iv => some (.ok (.list [.symbol "quasiquote", iv])))

/-- The item loop of the quasiquote List case. -/
def evalQuasiListItems : Nat → List BExpr → BEnvData → List BValue →
    Option (ROut (List BValue))
  | 0, _, _, _ => none
  | _ + 1, [], _, acc => some (.ok acc)
  | n + 1, item :: items, env, acc =>
    match item with
    | .unquoteSplice inner =>
      rbind (eval n inner env) (fun v =>
        match v with
        | .list spliced => evalQuasiListItems n items env (acc ++ spliced)
        | .set _ =>
          some (.err (.quasiquoteError "Cannot splice Set (~@) into List (\x27`[])"))
        | other =>
          some (.err (.quasiquoteError
            ("Cannot splice value of type " ++ other.typeName ++ " (need a List)"))))
    | .unquote inner =>
      rbind (eval n inner env) (fun v => evalQuasiListItems n items env (acc ++ [v]))
    | _ =>
      rbind (evalQuasi n item env) (fun v => evalQuasiListItems n items env (acc ++ [v]))

/-- The item loop of the quasiquote Set case. -/
def evalQuasiSetItems : Nat → List BExpr → BEnvData → List BValue →
    Option (ROut (List BValue))
  | 0, _, _, _ => none
  | _ + 1, [], _, acc => some (.ok acc)
  | n + 1, item :: items, env, acc =>
    match item with
    | .unquoteSplice inner =>
      rbind (eval n inner env) (fun v =>
        match v with
        | .set spliced =>
          match setSpliceSet spliced acc with
          | .ok acc' => evalQuasiSetItems n items env acc'
          | .err e => some (.err e)
          | .panic m => some (.panic m)
        | .list spliced =>
          match setSpliceList spliced acc with
          | .ok acc' => evalQuasiSetItems n items env acc'
          | .err e => some (.err e)
          | .panic m => some (.panic m)
        | other =>
          some (.err (.quasiquoteError
            ("~@ in Set requires a Set or List value, found " ++ other.typeName))))
    | .unquote inner =>
      rbind (eval n inner env) (fun v =>
        if !isHashable v then some (.err (.hashingError (valueDisplay v) v.typeName))
        else evalQuasiSetItems n items env (setInsert v acc))
    | _ =>
      rbind (evalQuasi n item env) (fun v =>
        if !isHashable v then some (.err (.hashingError (valueDisplay v) v.typeName))
        else evalQuasiSetItems n items env (setInsert v acc))

/-- The entry loop of the quasiquote Map case (keys become Symbols). -/
def evalQuasiMapEntries : Nat → List (String × BExpr) → BEnvData →
    List (BValue × BValue) → Option (ROut (List (BValue × BValue)))
  | 0, _, _, _ => none
  | _ + 1, [], _, acc => some (.ok acc)
  | n + 1, (keyStr, valueExpr) :: es, env, acc =>
    let keyVal : BValue := .symbol keyStr
    if !isHashable keyVal then
      some (.err (.hashingError (valueDisplay keyVal) keyVal.typeName))
    else
      match valueExpr with
      | .unquote inner =>
        rbind (eval n inner env) (fun v => evalQuasiMapEntries n es env (mapInsert keyVal v acc))
      | .unquoteSplice _ =>
        some (.err (.quasiquoteError
          "Unquote-splice (~@) not supported directly as map value in quasiquote"))
      | _ =>
        rbind (evalQuasi n valueExpr env)
          (fun v => evalQuasiMapEntries n es env (mapInsert keyVal v acc))

/-- The argument loop of the quasiquote Application case. -/
def evalQuasiArgs : Nat → List BExpr → BEnvData → Option (ROut (List BValue))
  | 0, _, _ => none
  | _ + 1, [], _ => some (.ok [])
  | n + 1, e :: es, env =>
    rbind (evalQuasi n e env) (fun v =>
      rbind (evalQuasiArgs n es env) (fun vs => some (.ok (v :: vs))))

end

/-- `extract_params_from_signature`: the placeholder always returns the
empty parameter vector. -/
def extractParamsFromSignature (_signature : Option BTypeExpr) : List BPattern := []

/-- `evaluate_declaration`: evaluate one declaration, returning the
updated environment.  (The `Rc<RefCell<..>>` sharing of the source means
a Function closure in Rust later observes its own binding; this
functional embedding snapshots the captured environment, which is
faithful for everything except evaluating a recursive call inside the
declared body.) -/
def evaluateDeclaration (fuel : Nat) (decl : BDeclaration) (env : BEnvData) :
    Option (ROut BEnvData) :=
  match decl with
  | .entity name _ valueOpt =>
    match valueOpt with
    | some e => rbind (eval fuel e env) (fun v => some (.ok (envDefine env name v)))
    | none => some (.ok (envDefine env name .null))
  | .function name signature body =>
    let params := extractParamsFromSignature (some signature)
    let closure : BValue := .function (.closure params body env)
    some (.ok (envDefine env name closure))
  | .type name _ => some (.ok (envDefine env name (.symbol ("type " ++ name))))
  | .operation name _ => some (.ok (envDefine env name (.symbol ("op " ++ name))))
  | .dependency _ _ _ => some (.ok env)

/-- `populate_global_env`: the fixed native bindings, in their
definition order. -/
def populateGlobalEnv : BEnvData :=
  .frame
    [("+", .function (.native "+")),
     ("-", .function (.native "-")),
     ("*", .function (.native "*")),
     ("/", .function (.native "/")),
     ("==", .function (.native "==")),
     ("!=", .function (.native "!=")),
     ("<", .function (.native "<")),
     (">", .function (.native ">")),
     ("<=", .function (.native "<=")),
     (">=", .function (.native ">=")),
     ("print", .function (.native "print"))]
    none


/-! ## Hashing (impl Hash for Value, src/evaluator/mod.rs)

The collections are `FxHashMap`s, so the hasher is `rustc_hash`'s
`FxHasher` (the classic rotate-xor-multiply algorithm, 64-bit platform):
state starts at 0 and every written word w updates it to
`(rotl(state, 5) ^ w) * SEED mod 2^64`.  Every `Hasher::write_*` call
reduces to such word writes: integer writes are one word, byte-slice
writes are chunked into 8-, 4-, 2- and 1-byte little-endian words, and
`str` hashing writes the UTF-8 bytes followed by a single 0xff byte.
`Hash for Value` first hashes `mem::discriminant` (the variant index as
an isize: Integer = 0 ... Void = 12), then the payload; `Map`/`Set`
hash their length and the xor of the per-entry `FxHasher` digests;
hashing a Function/Module/Quote panics (modelled as `none`). -/

/-- The FxHasher multiplier. -/
def fxSeed : Nat := 0x517cc1b727220a95

/-- 64-bit rotate left by 5. -/
def rotl5 (h : Nat) : Nat := (h % 2 ^ 59) * 2 ^ 5 + h / 2 ^ 59

/-- `FxHasher::add_to_hash`. -/
def fxAdd (h w : Nat) : Nat := ((rotl5 h) ^^^ w) * fxSeed % 2 ^ 64

/-- Digest of a word stream (`FxHasher::finish` after writing). -/
def fxFinish (ws : List Nat) : Nat := ws.foldl fxAdd 0

/-- `i as usize` / `i as u64` for an i64 (two's complement). -/
def i64ToU64 (i : Int) : Nat := (i % (2 ^ 64 : Int)).toNat

/-- UTF-8 encoding of one character. -/
def charUtf8 (c : Char) : List Nat :=
  let n := c.toNat
  if n < 0x80 then [n]
  else if n < 0x800 then [0xC0 + n / 64, 0x80 + n % 64]
  else if n < 0x10000 then [0xE0 + n / 4096, 0x80 + n / 64 % 64, 0x80 + n % 64]
  else [0xF0 + n / 262144, 0x80 + n / 4096 % 64, 0x80 + n / 64 % 64, 0x80 + n % 64]

/-- UTF-8 bytes of a string. -/
def strBytes (s : String) : List Nat := (s.data.map charUtf8).flatten

/-- Little-endian value of a byte list. -/
def leVal : List Nat → Nat
  | [] => 0
  | b :: bs => b + 256 * leVal bs

/-- The 4/2/1-byte tail phase of `FxHasher::write` (at most 7 bytes). -/
def fxTail (bs : List Nat) : List Nat :=
  let r4 := if bs.length ≥ 4 then bs.drop 4 else bs
  let c4 : List Nat := if bs.length ≥ 4 then [leVal (bs.take 4)] else []
  let r2 := if r4.length ≥ 2 then r4.drop 2 else r4
  let c2 : List Nat := if r4.length ≥ 2 then [leVal (r4.take 2)] else []
  let c1 : List Nat := match r2 with | [] => [] | b :: _ => [b]
  c4 ++ c2 ++ c1

/-- `FxHasher::write`: chunk a byte slice into hashed words. -/
def fxChunks (bs : List Nat) : List Nat :=
  if bs.length ≥ 8 then leVal (bs.take 8) :: fxChunks (bs.drop 8)
  else fxTail bs
termination_by bs.length
decreasing_by simp; omega

/-- `Hash for str`: the UTF-8 bytes then a 0xff terminator byte. -/
def strHashWords (s : String) : List Nat := fxChunks (strBytes s) ++ [0xff]

mutual

/-- The word stream `Hash for Value` feeds to the hasher; `none` models
the panic on Function/Module/Quote. -/
def hashWords : BValue → Option (List Nat)
  | .integer i => some [0, i64ToU64 i]
  | .float b => some [1, if f64IsNan b then 0 else b]
  | .str s => some (2 :: strHashWords s)
  | .bool b => some [3, if b then 1 else 0]
  | .symbol s => some (4 :: strHashWords s)
  | .list vs =>
    -- slice hashing writes the length first, then each element
    match hashWordsList vs with
    | some ws => some (5 :: vs.length :: ws)
    | none => none
  | .map entries =>
    match hashXorMap entries with
    | some x => some [6, entries.length, x]
    | none => none
  | .set elems =>
    match hashXorSet elems with
    | some x => some [7, elems.length, x]
    | none => none
  | .function _ => none
  | .module _ => none
  | .quote _ => none
  | .null => some [11, 2]
  | .void => some [12, 3]

/-- Concatenated word streams of a list of values. -/
def hashWordsList : List BValue → Option (List Nat)
  | [] => some []
  | v :: vs =>
    match hashWords v, hashWordsList vs with
    | some ws, some rest => some (ws ++ rest)
    | _, _ => none

/-- The xor of per-entry FxHasher digests of a map. -/
def hashXorMap : List (BValue × BValue) → Option Nat
  | [] => some 0
  | (k, v) :: rest =>
    match hashWords k, hashWords v, hashXorMap rest with
    | some kw, some vw, some x => some ((fxFinish (kw ++ vw)) ^^^ x)
    | _, _, _ => none

/-- The xor of per-key FxHasher digests of a set. -/
def hashXorSet : List BValue → Option Nat
  | [] => some 0
  | k :: rest =>
    match hashWords k, hashXorSet rest with
    | some kw, some x => some ((fxFinish kw) ^^^ x)
    | _, _ => none

end

/-- The FxHasher digest a value produces when used as a hash-map key
(`none` when hashing would panic). -/
def valueHash (v : BValue) : Option Nat := (hashWords v).map fxFinish


/-! ## The secondary Q evaluator (qparser/src/ast.rs)

`eval_str` parses with the Q grammar and evaluates with `Expr::eval`;
this is the evaluator whose integer/integer division promotes to
float. -/

/-- Q AST (qparser enum Expr); Float carries the f64 bit pattern. -/
inductive QExpr where
  | int (i : Int)
  | float (bits : Nat)
  | add (l r : QExpr)
  | sub (l r : QExpr)
  | mul (l r : QExpr)
  | div (l r : QExpr)

/-- Outcome of Q evaluation (`Result<Expr, String>` plus debug-build
overflow panics). -/
inductive QOut where
  | ok (e : QExpr)
  | err (msg : String)
  | panic (msg : String)

/-- `Expr::eval` of the qparser crate. -/
def qeval : QExpr → QOut
  | .int i => .ok (.int i)
  | .float f => .ok (.float f)
  | .add l r =>
    match qeval l with
    | .ok lv =>
      match qeval r with
      | .ok rv =>
        match lv, rv with
        | .int a, .int b =>
          if inI64 (a + b) then .ok (.int (a + b)) else .panic "attempt to add with overflow"
        | .int a, .float b => .ok (.float (f64Add (i64ToF64 a) b))
        | .float a, .int b => .ok (.float (f64Add a (i64ToF64 b)))
        | .float a, .float b => .ok (.float (f64Add a b))
        | _, _ => .err "Type error in addition"
      | other => other
    | other => other
  | .sub l r =>
    match qeval l with
    | .ok lv =>
      match qeval r with
      | .ok rv =>
        match lv, rv with
        | .int a, .int b =>
          if inI64 (a - b) then .ok (.int (a - b)) else .panic "attempt to subtract with overflow"
        | .int a, .float b => .ok (.float (f64Sub (i64ToF64 a) b))
        | .float a, .int b => .ok (.float (f64Sub a (i64ToF64 b)))
        | .float a, .float b => .ok (.float (f64Sub a b))
        | _, _ => .err "Type error in subtraction"
      | other => other
    | other => other
  | .mul l r =>
    match qeval l with
    | .ok lv =>
      match qeval r with
      | .ok rv =>
        match lv, rv with
        | .int a, .int b =>
          if inI64 (a * b) then .ok (.int (a * b)) else .panic "attempt to multiply with overflow"
        | .int a, .float b => .ok (.float (f64Mul (i64ToF64 a) b))
        | .float a, .int b => .ok (.float (f64Mul a (i64ToF64 b)))
        | .float a, .float b => .ok (.float (f64Mul a b))
        | _, _ => .err "Type error in multiplication"
      | other => other
    | other => other
  | .div l r =>
    match qeval l with
    | .ok lv =>
      match qeval r with
      | .ok rv =>
        -- the divisor-zero guards precede the type dispatch
        match rv with
        | .int 0 => .err "Division by zero"
        | .float b =>
          if f64Eq b 0 then .err "Division by zero"
          else
            match lv with
            | .int a => .ok (.float (f64Div (i64ToF64 a) b))
            | .float a => .ok (.float (f64Div a b))
            | _ => .err "Type error in division"
        | _ =>
          match lv, rv with
          | .int a, .int b => .ok (.float (f64Div (i64ToF64 a) (i64ToF64 b)))
          | .float a, .int b => .ok (.float (f64Div a (i64ToF64 b)))
          | _, _ => .err "Type error in division"
      | other => other
    | other => other

/-! ## The Pratt operator-precedence table (create_pratt_parser)

`pest::pratt_parser::PrattParser` gives each successive `.op(...)` call
a strictly higher binding power than all earlier ones, so the table is
a list of levels ordered from loosest to tightest binding. -/

/-- Operator associativity (pest Assoc). -/
inductive PrattAssoc where
  | left
  | right
deriving DecidableEq

/-- An operator entry of a precedence level: an infix rule with an
associativity, or a unary prefix rule. -/
inductive PrattOp where
  | inf (rule : String) (assoc : PrattAssoc)
  | pre (rule : String)
deriving DecidableEq

/-- The levels of `create_pratt_parser`, in builder order (each later
level binds tighter than every earlier one). -/
def prattLevels : List (List PrattOp) :=
  [[.inf "op_colon" .left],
   [.inf "op_or" .left],
   [.inf "op_and" .left],
   [.inf "op_eq" .left, .inf "op_neq" .left, .inf "op_lt" .left,
    .inf "op_gt" .left, .inf "op_lte" .left, .inf "op_gte" .left],
   [.inf "op_add" .left, .inf "op_sub" .left],
   [.inf "op_mul" .left, .inf "op_div" .left],
   [.pre "op_not", .pre "op_neg", .pre "op_unquote"],
   [.inf "op_pipe" .right]]

/-- Does a level mention the given rule? -/
def levelMentions (rule : String) (level : List PrattOp) : Bool :=
  level.any (fun op =>
    match op with
    | .inf r _ => r == rule
    | .pre r => r == rule)

/-! ## Diagnostic synthesis (error_reporting.rs and errors.rs)

The pest `Rule` enum is generated from the grammar file (which is not
part of src/); the constructors modelled here are the ones the
diagnostic code inspects, plus the generic fallback behaviour.  Inputs
are modelled as UTF-8 byte lists because pest error positions are byte
offsets and `str::get` is byte-indexed. -/

/-- The grammar rules the diagnostic code distinguishes. -/
inductive PRule where
  | expr
  | literal
  | identifier
  | fn_decl
  | type_decl
  | op_decl
  | module_decl
  | module_body
  | parenthesized_expr
  | list_literal
  | list_pattern
  | let_expr
  | lambda
deriving DecidableEq

/-- `format!("{:?}", rule)`: the rule identifier text. -/
def ruleDebugName : PRule → String
  | .expr => "expr"
  | .literal => "literal"
  | .identifier => "identifier"
  | .fn_decl => "fn_decl"
  | .type_decl => "type_decl"
  | .op_decl => "op_decl"
  | .module_decl => "module_decl"
  | .module_body => "module_body"
  | .parenthesized_expr => "parenthesized_expr"
  | .list_literal => "list_literal"
  | .list_pattern => "list_pattern"
  | .let_expr => "let_expr"
  | .lambda => "lambda"

/-- `friendly_rule_name` (errors.rs); rules absent from the lookup
table fall back to "a {:?}". -/
def friendlyRuleName (r : PRule) : String :=
  match r with
  | .expr => "an expression"
  | .literal => "a literal (number, string, etc.)"
  | .identifier => "an identifier"
  | .lambda => "a lambda expression (e.g., [x -> x + 1])"
  | .let_expr => "a let expression (e.g., let x = 10 in x * 2)"
  | .parenthesized_expr => "a parenthesized expression (e.g., (1 + 2))"
  | .list_literal => "a list literal (e.g., [1, 2, 3])"
  | .list_pattern => "a list pattern (e.g., [x, y, z])"
  | _ => "a " ++ ruleDebugName r

/-- A pest error position: a point or a byte span. -/
inductive InputLocation where
  | pos (p : Nat)
  | span (s e : Nat)

/-- A pest line/column location. -/
inductive LineColLoc where
  | pos (line col : Nat)
  | span (line col line2 col2 : Nat)

/-- A pest error variant: grammar mismatch (expected/unexpected rule
sets) or a custom message. -/
inductive PestVariant where
  | parsingError (positives negatives : List PRule)
  | customError (message : String)

/-- A pest error (`pest::error::Error<Rule>`). -/
structure PestError where
  variant : PestVariant
  location : InputLocation
  lineCol : LineColLoc

/-- The diagnostic kind the converters choose. -/
inductive EnhKind where
  | syntaxError
  | unexpectedToken
  | missingToken
deriving DecidableEq

/-- The fields of the produced diagnostic (one record for the variant
payloads; fields a variant does not carry stay empty). -/
structure DiagOut where
  kind : EnhKind
  message : String
  expected : String
  found : String
  spanOffset : Nat
  spanLen : Nat
  location : String
  helpMessage : String
  suggestion : Option String

/-- Is byte index i a char boundary of the UTF-8 input
(`str::is_char_boundary`)? -/
def isCharBoundary (input : List Nat) (i : Nat) : Bool :=
  match input.drop i with
  | [] => i == input.length
  | b :: _ => b < 0x80 || 0xC0 ≤ b

/-- `input.get(a..b)`: the byte slice, provided the bounds are ordered,
in range, and on char boundaries. -/
def strGetRange (input : List Nat) (a b : Nat) : Option (List Nat) :=
  if a ≤ b && b ≤ input.length && isCharBoundary input a && isCharBoundary input b then
    some ((input.drop a).take (b - a))
  else none

/-- An ASCII whitespace byte.  (`str::trim` also strips the multi-byte
Unicode whitespace code points; those are not stripped in this byte
model.) -/
def isAsciiWs (b : Nat) : Bool :=
  b == 0x20 || b == 0x09 || b == 0x0A || b == 0x0B || b == 0x0C || b == 0x0D

/-- `str::trim` on bytes. -/
def trimBytes (bs : List Nat) : List Nat :=
  ((bs.dropWhile isAsciiWs).reverse.dropWhile isAsciiWs).reverse

/-- Decode UTF-8 bytes back to a string (inputs are valid UTF-8). -/
def utf8DecodeChars : List Nat → List Char
  | [] => []
  | b :: bs =>
    if b < 0x80 then Char.ofNat b :: utf8DecodeChars bs
    else if b < 0xE0 then
      match bs with
      | c1 :: rest => Char.ofNat ((b - 0xC0) * 64 + (c1 - 0x80)) :: utf8DecodeChars rest
      | [] => [Char.ofNat 0xFFFD]
    else if b < 0xF0 then
      match bs with
      | c1 :: c2 :: rest =>
        Char.ofNat ((b - 0xE0) * 4096 + (c1 - 0x80) * 64 + (c2 - 0x80)) :: utf8DecodeChars rest
      | _ => [Char.ofNat 0xFFFD]
    else
      match bs with
      | c1 :: c2 :: c3 :: rest =>
        Char.ofNat ((b - 0xF0) * 262144 + (c1 - 0x80) * 4096 + (c2 - 0x80) * 64 + (c3 - 0x80))
          :: utf8DecodeChars rest
      | _ => [Char.ofNat 0xFFFD]

/-- Decoded string of a byte list. -/
def utf8Decode (bs : List Nat) : String := String.mk (utf8DecodeChars bs)

/-- The bytes of "<end of input>", the `unwrap_or` fallback text. -/
def eoiMarker : List Nat := strBytes "<end of input>"

/-- `input.get(off..off+len).unwrap_or("<end of input>").trim()`. -/
def foundTextBytes (input : List Nat) (off len : Nat) : List Nat :=
  match strGetRange input off (off + len) with
  | some bs => trimBytes bs
  | none => trimBytes eoiMarker

/-- Does the first character list start with the second? -/
def listStartsWith : List Char → List Char → Bool
  | _, [] => true
  | [], _ :: _ => false
  | c :: cs, d :: ds => c == d && listStartsWith cs ds

/-- Substring occurrence search on character lists. -/
def listContainsSub : List Char → List Char → Bool
  | s, sub =>
    listStartsWith s sub ||
      (match s with
       | [] => false
       | _ :: rest => listContainsSub rest sub)

/-- Rust `str::contains` for a literal substring. -/
def strContainsSub (s sub : String) : Bool := listContainsSub s.toList sub.toList

/-- Rust `str::starts_with`. -/
def strStartsWith (s pre : String) : Bool := listStartsWith s.toList pre.toList

/-- Rust `str::ends_with`. -/
def strEndsWith (s suffix : String) : Bool :=
  listStartsWith s.toList.reverse suffix.toList.reverse

/-- ASCII lowercasing (`to_lowercase`; the rule names are ASCII). -/
def asciiLower (s : String) : String := String.mk (s.toList.map Char.toLower)

/-- The `rule_is` helper of error_reporting.rs: does the lowercased
debug name of the rule contain one of the given fragments? -/
def ruleIs (r : PRule) (names : List String) : Bool :=
  let ruleName := asciiLower (ruleDebugName r)
  names.any (fun n => strContainsSub ruleName n)

/-- `suggest_fix` (error_reporting.rs): typo suggestions keyed on the
first expected rule, then structural close-the-bracket suggestions. -/
def suggestFixEnh (rules : List PRule) (found : String) : Option String :=
  match rules with
  | [] => none
  | rule :: _ =>
    let typo : Option String :=
      if ruleIs rule ["fn_decl", "function"] then
        if strContainsSub found "fun" || strContainsSub found "func" then
          some "Did you mean \x27fn\x27?"
        else none
      else if ruleIs rule ["type_decl", "type"] then
        if found == "Type" then some "Did you mean \x27type\x27?" else none
      else if ruleIs rule ["op_decl", "operation"] then
        if found == "Op" then some "Did you mean \x27op\x27?" else none
      else if ruleIs rule ["module_decl", "module"] && !(strStartsWith found "@") then
        some ("Module names must start with \x27@\x27, like \x27@" ++ found ++ "\x27?")
      else none
    match typo with
    | some sugg => some sugg
    | none =>
      if ruleIs rule ["parenthesized_expr"] && strEndsWith found "(" then
        some "Missing closing \x27)\x27?"
      else if ruleIs rule ["module_body"] && strEndsWith found "\x7b" then
        some "Missing closing \x27\x7d\x27?"
      else if (ruleIs rule ["list_literal"] || ruleIs rule ["list_pattern"])
          && strEndsWith found "[" then
        some "Missing closing \x27]\x27?"
      else none

/-- `generate_help_message` (error_reporting.rs). -/
def generateHelpMessageEnh (rules : List PRule) (found expected : String) : String :=
  match rules with
  | [] =>
    if !found.isEmpty && strContainsSub found "(" && !strContainsSub found ")" then
      "It looks like you\x27re missing a closing parenthesis \x27)\x27."
    else if !found.isEmpty && strContainsSub found "\x7b" && !strContainsSub found "\x7d" then
      "It looks like you\x27re missing a closing brace \x27\x7d\x27."
    else if !found.isEmpty && strContainsSub found "[" && !strContainsSub found "]" then
      "It looks like you\x27re missing a closing bracket \x27]\x27."
    else if !expected.isEmpty then
      "Expected " ++ expected ++ ". Check the syntax near this location."
    else
      "Something isn\x27t right here. Expected " ++ expected ++ ", but found \x27" ++ found ++ "\x27."
  | rule :: _ =>
    if ruleIs rule ["fn_decl", "function"] then
      "Function declarations start with \x27fn\x27. Found \x27" ++ found ++ "\x27 instead."
    else if ruleIs rule ["type_decl", "type"] then
      "Type declarations start with \x27type\x27. Found \x27" ++ found ++ "\x27 instead."
    else if ruleIs rule ["module_decl", "module"] then
      "Module declarations start with \x27@\x27. Found \x27" ++ found ++ "\x27 instead."
    else
      "Expected " ++ expected ++ ". Check the syntax near this location."

/-- `enhance_pest_error`: convert a pest error into an enhanced
diagnostic. -/
def enhancePestError (error : PestError) (input : List Nat) (_sourceName : Option String) :
    DiagOut :=
  let lc := match error.lineCol with
    | .pos l c => (l, c)
    | .span l c _ _ => (l, c)
  let location := toString lc.1 ++ ":" ++ toString lc.2
  let sp := match error.location with
    | .pos p => (p, 0)
    | .span s e => (s, e - s)
  let spanOff := sp.1
  let spanLen := sp.2
  match error.variant with
  | .parsingError positives negatives =>
    let expected :=
      String.intercalate " or "
        (positives.map (fun r => "\x27" ++ ruleDebugName r ++ "\x27"))
    let foundText := utf8Decode (foundTextBytes input spanOff spanLen)
    let foundDesc :=
      if !foundText.isEmpty && spanLen > 0 then "\x27" ++ foundText ++ "\x27"
      else if !negatives.isEmpty then
        String.intercalate ", "
          (negatives.map (fun r => "\x27" ++ ruleDebugName r ++ "\x27"))
      else if foundText == "<end of input>" then "end of input"
      else "an unexpected token"
    let suggestion := suggestFixEnh positives foundText
    let helpMessage := generateHelpMessageEnh positives foundText expected
    if positives.isEmpty && negatives.isEmpty then
      { kind := .syntaxError, message := "Unknown syntax error", expected := "", found := "",
        spanOffset := spanOff, spanLen := spanLen, location := location,
        helpMessage := helpMessage, suggestion := suggestion }
    else if positives.isEmpty then
      { kind := .unexpectedToken, message := "", expected := "something else",
        found := foundDesc, spanOffset := spanOff, spanLen := spanLen, location := location,
        helpMessage := helpMessage, suggestion := suggestion }
    else if spanLen == 0 && foundText == "<end of input>" then
      { kind := .missingToken, message := "", expected := expected, found := "",
        spanOffset := input.length, spanLen := 0, location := location,
        helpMessage := "Expected " ++ expected ++ " before the end of the input.",
        suggestion := suggestion }
    else if spanLen == 0 then
      { kind := .missingToken, message := "", expected := expected, found := "",
        spanOffset := spanOff, spanLen := spanLen, location := location,
        helpMessage := helpMessage, suggestion := suggestion }
    else
      { kind := .unexpectedToken, message := "", expected := expected, found := foundDesc,
        spanOffset := spanOff, spanLen := spanLen, location := location,
        helpMessage := helpMessage, suggestion := suggestion }
  | .customError message =>
    { kind := .syntaxError, message := message, expected := "", found := "",
      spanOffset := spanOff, spanLen := spanLen, location := location,
      helpMessage := "Check the syntax or logic around this location.", suggestion := none }

/-- `suggest_fix` (errors.rs): exact constructor/text matches. -/
def suggestFixErrors (rule : PRule) (found : String) : Option String :=
  if rule = .fn_decl && (found == "fun" || found == "func" || found == "function") then
    some "Did you mean \x27fn\x27?"
  else if rule = .type_decl && found == "Type" then some "Did you mean \x27type\x27?"
  else if rule = .op_decl && found == "Op" then some "Did you mean \x27op\x27?"
  else if rule = .module_decl && !(strStartsWith found "@") then
    some ("Module names must start with \x27@\x27, like \x27@" ++ found ++ "\x27?")
  else if rule = .parenthesized_expr && strEndsWith found "(" then
    some "Missing closing \x27)\x27?"
  else if rule = .module_body && strEndsWith found "\x7b" then
    some "Missing closing \x27\x7d\x27?"
  else if (rule = .list_literal || rule = .list_pattern) && strEndsWith found "[" then
    some "Missing closing \x27]\x27?"
  else none

/-- `generate_help_message` (errors.rs). -/
def generateHelpMessageErrors (rule : Option PRule) (found expected : String) : String :=
  match rule with
  | some .fn_decl =>
    "Function declarations start with \x27fn\x27. Found \x27" ++ found ++ "\x27 instead."
  | some .type_decl =>
    "Type declarations start with \x27type\x27. Found \x27" ++ found ++ "\x27 instead."
  | some .module_decl =>
    "Module declarations start with \x27@\x27. Found \x27" ++ found ++ "\x27 instead."
  | _ =>
    if strContainsSub found "(" && !strContainsSub found ")" then
      "It looks like you\x27re missing a closing parenthesis \x27)\x27."
    else if strContainsSub found "\x7b" && !strContainsSub found "\x7d" then
      "It looks like you\x27re missing a closing brace \x27\x7d\x27."
    else if strContainsSub found "[" && !strContainsSub found "]" then
      "It looks like you\x27re missing a closing bracket \x27]\x27."
    else if !expected.isEmpty then
      "Expected " ++ expected ++ ". Check the syntax near this location."
    else
      "Something isn\x27t right here. Expected " ++ expected ++ ", but found \x27" ++ found ++ "\x27."

/-- `ParseError::from_pest`: the errors.rs converter (any non-empty
negative set is UnexpectedToken; otherwise MissingToken pointing at the
end of the input). -/
def fromPest (error : PestError) (input : List Nat) (_sourceName : Option String) : DiagOut :=
  let lc := match error.lineCol with
    | .pos l c => (l, c)
    | .span l c _ _ => (l, c)
  let location := toString lc.1 ++ ":" ++ toString lc.2
  let sp := match error.location with
    | .pos p => (p, 0)
    | .span s e => (s, e - s)
  match error.variant with
  | .parsingError positives negatives =>
    match negatives with
    | foundRule :: _ =>
      let foundDesc := friendlyRuleName foundRule
      let expected := String.intercalate " or " (positives.map friendlyRuleName)
      { kind := .unexpectedToken, message := "", expected := expected, found := foundDesc,
        spanOffset := sp.1, spanLen := sp.2, location := location,
        helpMessage := generateHelpMessageErrors (some foundRule) foundDesc expected,
        suggestion := suggestFixErrors foundRule foundDesc }
    | [] =>
      let expected := String.intercalate " or " (positives.map friendlyRuleName)
      { kind := .missingToken, message := "", expected := expected, found := "",
        spanOffset := input.length, spanLen := 0, location := location,
        helpMessage := generateHelpMessageErrors none "end of input" expected,
        suggestion := none }
  | .customError message =>
    { kind := .syntaxError, message := message, expected := "", found := "",
      spanOffset := sp.1, spanLen := sp.2, location := location,
      helpMessage := "Check the syntax near this location.", suggestion := none }

/-! ## The deterministic parallel driver (src/concurrent.rs) -/

/-- `enumerate()`: pair every element with its index, starting at k. -/
def indexedFrom {r : Type} : Nat → List r → List (Nat × r)
  | _, [] => []
  | k, x :: xs => (k, x) :: indexedFrom (k + 1) xs

/-- Look a job index up in the result table (`DashMap` keyed by job
index; each index is inserted exactly once). -/
def tableLookup {r : Type} (i : Nat) (table : List (Nat × r)) : Option r :=
  (table.find? (fun kv => kv.1 == i)).map Prod.snd

/-- `DeterministicParseResults::get_ordered_results`: find the maximum
present index (0 when empty), then drain indices 0..=max in ascending
order, skipping missing entries. -/
def getOrderedResults {r : Type} (table : List (Nat × r)) : List r :=
  let maxIdx := (table.map Prod.fst).foldl max 0
  (List.range (maxIdx + 1)).filterMap (fun i => tableLookup i table)

/-- The result `parse_files_deterministic` records for one job: a
failed read is stored as an Io `ParseError` at the job's index, without
being parsed; a successful read is parsed and converted
(`traceable_parse` + `process_pairs` on success, `ParseError::from_pest`
on failure — abstracted as `runJob`, exactly as the parser and
`process_pairs` are type parameters of the Rust function). -/
def jobOutcome {ioe content r : Type} (ioWrap : ioe → r) (runJob : content → r) :
    Except ioe content → r
  | .error e => ioWrap e
  | .ok c => runJob c

/-- The insertion multiset `parse_files_deterministic` produces: every
job's outcome, keyed by the job's enumeration index (phase 1 inserts
the read failures, the parallel phase 2 inserts parse outcomes; each
index is inserted exactly once).  A run of the driver is any
permutation of this table — the order the concurrent insertions
happened in — drained by `getOrderedResults`. -/
def driverInsertions {ioe content r : Type}
    (reads : List (Except ioe content)) (ioWrap : ioe → r) (runJob : content → r) :
    List (Nat × r) :=
  indexedFrom 0 (reads.map (jobOutcome ioWrap runJob))

instance : RightCommutative (max : Nat → Nat → Nat) :=
  ⟨fun b a1 a2 => by omega⟩

/-- Two entries of a table with `Nodup` keys that share a key are equal. -/
theorem eq_of_mem_of_nodup_keys {r : Type} {l : List (Nat × r)}
    (h : (l.map Prod.fst).Nodup) {x y : Nat × r}
    (hx : x ∈ l) (hy : y ∈ l) (hk : x.1 = y.1) : x = y := by
  induction l with
  | nil => cases hx
  | cons a t ih =>
    have hcons := List.nodup_cons.mp h
    rcases List.mem_cons.mp hx with rfl | hx'
    · rcases List.mem_cons.mp hy with rfl | hy'
      · rfl
      · exact absurd (hk ▸ List.mem_map_of_mem Prod.fst hy') hcons.1
    · rcases List.mem_cons.mp hy with rfl | hy'
      · exact absurd (hk ▸ List.mem_map_of_mem Prod.fst hx') hcons.1
      · exact ih hcons.2 hx' hy'

/-- `tableLookup` is invariant under permutation of a table whose keys
are distinct. -/
theorem tableLookup_eq_of_perm {r : Type} {l1 l2 : List (Nat × r)}
    (hp : l1.Perm l2) (hnd : (l2.map Prod.fst).Nodup) (i : Nat) :
    tableLookup i l1 = tableLookup i l2 := by
  unfold tableLookup
  cases h2 : l2.find? (fun kv => kv.1 == i) with
  | none =>
    have h1 : l1.find? (fun kv => kv.1 == i) = none := by
      rw [List.find?_eq_none] at h2 ⊢
      exact fun x hx => h2 x (hp.mem_iff.mp hx)
    rw [h1]
  | some kv =>
    have hmem2 := List.mem_of_find?_eq_some h2
    have hpred := List.find?_some h2
    have hsome : (l1.find? (fun kv => kv.1 == i)).isSome :=
      List.find?_isSome.mpr ⟨kv, hp.mem_iff.mpr hmem2, hpred⟩
    obtain ⟨kv', h1⟩ := Option.isSome_iff_exists.mp hsome
    have hmem1 : kv' ∈ l2 := hp.mem_iff.mp (List.mem_of_find?_eq_some h1)
    have hpred1 := List.find?_some h1
    have hkv : kv' = kv := by
      apply eq_of_mem_of_nodup_keys hnd hmem1 hmem2
      have e1 : kv'.1 = i := by simpa using hpred1
      have e2 : kv.1 = i := by simpa using hpred
      rw [e1, e2]
    rw [h1, hkv]

/-- A lookup skips a head entry whose key differs. -/
theorem tableLookup_cons_ne {r : Type} {k i : Nat} (h : k ≠ i) (x : r)
    (t : List (Nat × r)) : tableLookup i ((k, x) :: t) = tableLookup i t := by
  unfold tableLookup
  rw [List.find?_cons, show (k == i) = false from beq_eq_false_iff_ne.mpr h]

/-- Looking up index `k + i` in a table enumerated from `k` returns the
`i`-th element. -/
theorem tableLookup_indexedFrom {r : Type} (l : List r) :
    ∀ (k i : Nat), tableLookup (k + i) (indexedFrom k l) = l.get? i := by
  induction l with
  | nil => intro k i; rfl
  | cons x xs ih =>
    intro k i
    cases i with
    | zero => simp [indexedFrom, tableLookup]
    | succ j =>
      have hcons : indexedFrom k (x :: xs) = (k, x) :: indexedFrom (k + 1) xs := rfl
      have hne : k ≠ k + (j + 1) := by omega
      rw [hcons, tableLookup_cons_ne hne,
        show k + (j + 1) = (k + 1) + j from by omega, ih (k + 1) j]
      rfl

/-- The keys of `indexedFrom k l` are `k, k+1, …, k + l.length - 1`. -/
theorem indexedFrom_map_fst {r : Type} (l : List r) :
    ∀ k, (indexedFrom k l).map Prod.fst = List.range' k l.length := by
  induction l with
  | nil => intro k; rfl
  | cons x xs ih =>
    intro k
    show k :: (indexedFrom (k + 1) xs).map Prod.fst = List.range' k (xs.length + 1)
    rw [ih (k + 1), List.range'_succ]

/-- Left fold of `max` over `0, …, n-1` starting at 0 is `n - 1`. -/
theorem foldl_max_range (n : Nat) : (List.range n).foldl max 0 = n - 1 := by
  induction n with
  | zero => rfl
  | succ m ih =>
    rw [List.range_succ, List.foldl_append]
    show max ((List.range m).foldl max 0) m = m + 1 - 1
    rw [ih]; omega

/-- Collecting `l.get? i` over `i = 0, …, l.length - 1` recovers `l`. -/
theorem filterMap_get?_range {r : Type} (l : List r) :
    (List.range l.length).filterMap (fun i => l.get? i) = l := by
  induction l with
  | nil => rfl
  | cons x xs ih =>
    rw [show (x :: xs).length = xs.length + 1 from rfl, List.range_succ_eq_map]
    calc (0 :: (List.range xs.length).map Nat.succ).filterMap
          (fun i => (x :: xs).get? i)
        = x :: ((List.range xs.length).map Nat.succ).filterMap
            (fun i => (x :: xs).get? i) := rfl
      _ = x :: (List.range xs.length).filterMap
            ((fun i => (x :: xs).get? i) ∘ Nat.succ) := by rw [List.filterMap_map]
      _ = x :: (List.range xs.length).filterMap (fun i => xs.get? i) := rfl
      _ = x :: xs := by rw [ih]


/-! ## Claims -/

/-- Claim C1, counterexample: the native `/` primitive of the main
evaluator does not promote an Integer/Integer division to Float — on
the operands 7 and 2 it returns the truncated Integer 3, not the Float
3.5 the claim asserts. -/
theorem c1_counterexample :
    applyNative "/" [.integer 7, .integer 2] = .ok (.integer 3) ∧
    ¬ applyNative "/" [.integer 7, .integer 2] = .ok (.float (roundF64 ⟨7, 2⟩)) := by
  refine ⟨rfl, fun h => ?_⟩
  rw [show applyNative "/" [.integer 7, .integer 2] = .ok (.integer 3) from rfl] at h
  simp at h

/-- Claim C4 (confirmed): evaluating the quasiquote
`(1 + ~(2 + 3)) in the primitive-populated global environment yields
exactly the List value [Symbol "+", Integer 1, Integer 5]: the unquote
is replaced by the evaluated result 5, not by the sub-expression. -/
theorem c4_quasiquote_roundtrip :
    eval 10
      (.quasiquote (.binaryOp "+" (.lit (.int 1))
        (.unquote (.binaryOp "+" (.lit (.int 2)) (.lit (.int 3))))))
      populateGlobalEnv
    = some (.ok (.list [.symbol "+", .integer 1, .integer 5])) := rfl

set_option maxRecDepth 40000 in
/-- Claim C9, counterexample: runtime equality identifies Integer 1 and
Float 1.0, but they feed different word streams to the hasher (the
variant discriminant comes first), so their FxHasher digests differ —
equality is not a congruence for hashing. -/
theorem c9_counterexample :
    valueEq (.integer 1) (.float (i64ToF64 1)) = true ∧
    valueHash (.integer 1) ≠ valueHash (.float (i64ToF64 1)) := by
  constructor
  · rw [valueEq.eq_def]
    decide
  · decide


set_option maxRecDepth 40000 in
set_option maxHeartbeats 4000000 in
/-- Claim C1, amended: `eval_str`'s evaluator (the Q sub-language)
promotes Integer/Integer division to Float — 7/2 evaluates to the Float
3.5 — but the native `/` primitive of the main evaluator truncates: for
every Integer pair with a nonzero divisor (and away from the
i64::MIN / -1 overflow panic) it returns the Integer quotient truncated
toward zero. -/
theorem c1_division_policy :
    qeval (.div (.int 7) (.int 2)) = .ok (.float (roundF64 ⟨7, 2⟩)) ∧
    ∀ a b : Int, b ≠ 0 → ¬(a = i64Min ∧ b = -1) →
      applyNative "/" [.integer a, .integer b] = .ok (.integer (Int.tdiv a b)) := by
  constructor
  · rfl
  · intro a b hb hmin
    have hb0 : (b == 0) = false := by simpa using hb
    simp only [applyNative]
    cases b with
    | ofNat n =>
      cases n with
      | zero => simp at hb0
      | succ m =>
        have hne : ((Int.ofNat (m + 1)) == -1) = false := rfl
        simp [hne]
        intro _
        omega
    | negSucc n =>
      by_cases hn : n = 0
      · subst hn
        have : (a == i64Min) = false := by
          simp only [beq_eq_false_iff_ne, ne_eq]
          intro ha
          exact hmin ⟨ha, rfl⟩
        simp [this]
      · have hne : ((Int.negSucc n) == -1) = false := by
          simp only [beq_eq_false_iff_ne, ne_eq]
          intro h
          rw [Int.negSucc_eq] at h
          apply hn
          omega
        simp [hne]

/-- Claim C1, witness: the amended division policy applied at 7 and 2. -/
theorem c1_division_policy_witness :
    applyNative "/" [.integer 7, .integer 2] = .ok (.integer (Int.tdiv 7 2)) :=
  c1_division_policy.2 7 2 (by decide) (by decide)

/-- Claim C2, counterexample: `-` on i64::MIN and 1 has a mathematical
result outside the 64-bit signed range, but it does not fail with
`InvalidOperation` — the unchecked subtraction panics (debug-build
overflow panic); only `+` is overflow-checked. -/
theorem c2_counterexample :
    applyNative "-" [.integer i64Min, .integer 1] = .panic "attempt to subtract with overflow" ∧
    ¬ ∃ msg, applyNative "-" [.integer i64Min, .integer 1] = .err (.invalidOperation msg) := by
  refine ⟨rfl, fun ⟨msg, h⟩ => ?_⟩
  rw [show applyNative "-" [.integer i64Min, .integer 1]
      = .panic "attempt to subtract with overflow" from rfl] at h
  exact ROut.noConfusion h

set_option maxHeartbeats 4000000 in
/-- Claim C2, amended: of the four integer arithmetic primitives only
`+` is overflow-checked (failing as `InvalidOperation`); out-of-range
`-` and `*` results panic (debug-build overflow panics), and
`/` panics on the single overflowing pair i64::MIN / -1. -/
theorem c2_overflow_behaviour :
    (∀ a b : Int, inI64 (a + b) = false →
      applyNative "+" [.integer a, .integer b] = .err (.invalidOperation "Integer overflow in +")) ∧
    (∀ a b : Int, inI64 (a - b) = false →
      applyNative "-" [.integer a, .integer b] = .panic "attempt to subtract with overflow") ∧
    (∀ a b : Int, inI64 (a * b) = false →
      applyNative "*" [.integer a, .integer b] = .panic "attempt to multiply with overflow") ∧
    applyNative "/" [.integer i64Min, .integer (-1)] = .panic "attempt to divide with overflow" := by
  refine ⟨fun a b h => ?_, fun a b h => ?_, fun a b h => ?_, rfl⟩
  · simp [applyNative, h]
  · simp [applyNative, h]
  · simp [applyNative, h]

/-- Claim C2, witness: the overflow-checked `+` at i64::MAX and 1. -/
theorem c2_overflow_behaviour_witness :
    applyNative "+" [.integer i64Max, .integer 1]
      = .err (.invalidOperation "Integer overflow in +") :=
  c2_overflow_behaviour.1 i64Max 1 (by decide)

/-- Claim C3, counterexample: a Set pattern matched against a Set value
of the same length does not recursively bind the elements — it returns
the `InvalidOperation` "not fully implemented" error. -/
theorem c3_counterexample :
    bindPattern (.set [.wildcard]) (.set [.integer 1]) []
      = .err (.invalidOperation "Set pattern matching not fully implemented") ∧
    ¬ ∃ result, bindPattern (.set [.wildcard]) (.set [.integer 1]) [] = .ok result := by
  refine ⟨rfl, fun ⟨result, h⟩ => ?_⟩
  rw [show bindPattern (.set [.wildcard]) (.set [.integer 1]) []
      = .err (.invalidOperation "Set pattern matching not fully implemented") from rfl] at h
  exact ROut.noConfusion h

set_option maxHeartbeats 4000000 in
/-- Claim C3, amended: a List or Set pattern against a collection of a
different length is a no-match `Ok(false)`, never an error; but an
equal-length Set pattern errors with `InvalidOperation` instead of
recursively binding (only List patterns recurse). -/
theorem c3_bind_pattern_lengths :
    (∀ (ps : List BPattern) (vs : List BValue) bindings, ps.length ≠ vs.length →
      bindPattern (.list ps) (.list vs) bindings = .ok (false, bindings)) ∧
    (∀ (ps : List BPattern) (vs : List BValue) bindings, ps.length ≠ vs.length →
      bindPattern (.set ps) (.set vs) bindings = .ok (false, bindings)) ∧
    (∀ (ps : List BPattern) (vs : List BValue) bindings, ps.length = vs.length →
      bindPattern (.set ps) (.set vs) bindings
        = .err (.invalidOperation "Set pattern matching not fully implemented")) := by
  refine ⟨fun ps vs bindings h => ?_, fun ps vs bindings h => ?_, fun ps vs bindings h => ?_⟩
  · have hb : (ps.length != vs.length) = true := by simpa using h
    simp [bindPattern, hb]
  · have hb : (ps.length != vs.length) = true := by simpa using h
    simp [bindPattern, hb]
  · have hb : (ps.length != vs.length) = false := by simpa using h
    simp [bindPattern, hb]

/-- Claim C3, witness: the length-mismatch no-match at a concrete List
pattern and value. -/
theorem c3_bind_pattern_lengths_witness :
    bindPattern (.list [.pvar "a", .pvar "b"]) (.list [.integer 1]) [] = .ok (false, []) :=
  c3_bind_pattern_lengths.1 [.pvar "a", .pvar "b"] [.integer 1] [] (by decide)

/-- Claim C10 (confirmed): parameter extraction from a Function
declaration's type signature always returns the empty vector, so every
declared function closes over an empty parameter list, and applying it
to one or more arguments fails with an ArityMismatch that reports 0
expected parameters. -/
theorem c10_declared_function_arity :
    (∀ sig, extractParamsFromSignature sig = []) ∧
    (∀ fuel name sig body env,
      evaluateDeclaration fuel (.function name sig body) env
        = some (.ok (envDefine env name (.function (.closure [] body env))))) ∧
    (∀ (fuel : Nat) (body : BExpr) (cenv : BEnvData) (args : List BValue), args ≠ [] →
      applyFunction (fuel + 1) (.function (.closure [] body cenv)) args
        = some (.err (.arityMismatch "Closure" "0" args.length))) := by
  refine ⟨fun _ => rfl, fun _ _ _ _ _ => rfl, fun fuel body cenv args h => ?_⟩
  cases args with
  | nil => exact absurd rfl h
  | cons a as => rfl

/-- Claim C10, witness: a declared function applied to one argument. -/
theorem c10_declared_function_arity_witness :
    applyFunction 1 (.function (.closure [] (.lit (.int 1)) populateGlobalEnv)) [.integer 5]
      = some (.err (.arityMismatch "Closure" "0" 1)) :=
  c10_declared_function_arity.2.2 0 (.lit (.int 1)) populateGlobalEnv [.integer 5]
    (List.cons_ne_nil _ _)


/-- The length of a pest error's failing span (0 for a point). -/
def spanLenOf : InputLocation → Nat
  | .pos _ => 0
  | .span s e => e - s

set_option maxHeartbeats 1000000 in
/-- Claim C5 (confirmed): `|>` sits alone on the last (tightest-binding)
level of the Pratt table with right associativity and appears on no
other level; evaluating `a |> f` applies the evaluated right operand to
the single evaluated left operand, and the native-operator table has no
`|>` entry at all, so the pipe result never comes from it. -/
theorem c5_pipe_highest_and_applies :
    prattLevels.getLast? = some [.inf "op_pipe" .right] ∧
    prattLevels.dropLast.all (fun level => !levelMentions "op_pipe" level) = true ∧
    (∀ (n : Nat) (l r : BExpr) (env : BEnvData) (lv fv : BValue),
      eval n l env = some (.ok lv) → eval n r env = some (.ok fv) →
      eval (n + 1) (.binaryOp "|>" l r) env = applyFunction n fv [lv]) ∧
    (∀ args, applyNative "|>" args = .err (.invalidOperation "Unknown native function: |>")) := by
  refine ⟨rfl, rfl, fun n l r env lv fv h1 h2 => ?_, fun args => rfl⟩
  show rbind (eval n l env) (fun lv => rbind (eval n r env) (fun fv => applyFunction n fv [lv]))
    = applyFunction n fv [lv]
  rw [h1, h2]
  rfl

/-- Claim C5, witness: `2 |> (fun x -> x)` pipes the integer into the
identity closure. -/
theorem c5_pipe_highest_and_applies_witness :
    eval 3 (.binaryOp "|>" (.lit (.int 2)) (.lam [.pvar "x"] (.evar "x"))) populateGlobalEnv
      = applyFunction 2 (.function (.closure [.pvar "x"] (.evar "x") populateGlobalEnv))
          [.integer 2] :=
  c5_pipe_highest_and_applies.2.2.1 2 (.lit (.int 2)) (.lam [.pvar "x"] (.evar "x"))
    populateGlobalEnv (.integer 2)
    (.function (.closure [.pvar "x"] (.evar "x") populateGlobalEnv)) rfl rfl

/-- Claim C6, counterexample: a pest parsing error with a zero-length
span but a non-empty negative-rule set (and non-empty positives) is
converted to MissingToken, although the claim's "non-empty negative
rule set is reported as UnexpectedToken" requires UnexpectedToken. -/
theorem c6_counterexample :
    (enhancePestError ⟨.parsingError [.expr] [.identifier], .pos 0, .pos 1 1⟩
      (strBytes "x") none).kind = .missingToken ∧
    EnhKind.missingToken ≠ EnhKind.unexpectedToken := by
  exact ⟨rfl, by decide⟩

/-- Claim C6, amended: for a grammar-mismatch error,
`enhance_pest_error` decides the kind by: both rule sets empty →
SyntaxError; positives empty (negatives non-empty) → UnexpectedToken;
otherwise zero-length span → MissingToken (even when negatives are
non-empty); otherwise UnexpectedToken.  The companion converter
`ParseError::from_pest` ignores the span entirely: non-empty negatives
→ UnexpectedToken, otherwise MissingToken. -/
theorem c6_missing_vs_unexpected :
    ∀ (positives negatives : List PRule) (loc : InputLocation) (lc : LineColLoc)
      (input : List Nat) (name : Option String),
      (enhancePestError ⟨.parsingError positives negatives, loc, lc⟩ input name).kind
        = (if positives.isEmpty && negatives.isEmpty then .syntaxError
           else if positives.isEmpty then .unexpectedToken
           else if spanLenOf loc == 0 then .missingToken
           else .unexpectedToken) ∧
      (fromPest ⟨.parsingError positives negatives, loc, lc⟩ input name).kind
        = (if negatives.isEmpty then .missingToken else .unexpectedToken) := by
  intro positives negatives loc lc input name
  constructor
  · cases loc with
    | pos p =>
      by_cases hp : positives.isEmpty <;> by_cases hn : negatives.isEmpty <;>
        simp [enhancePestError, spanLenOf, hp, hn] <;> split <;> rfl
    | span s e =>
      by_cases hp : positives.isEmpty <;> by_cases hn : negatives.isEmpty <;>
        by_cases hs : (e - s) == 0 <;>
        simp [enhancePestError, spanLenOf, hp, hn, hs] <;> split <;> rfl
  · cases negatives with
    | nil => simp [fromPest]
    | cons hd tl => simp [fromPest]


/-- The UTF-8 bytes of the spec's typo example input "fun: {a b c}". -/
def funTypoInput : List Nat := strBytes "fun: \x7ba b c\x7d"

/-- Modelled from the spec: the grammar file and the parser pest
generates from it are not part of src/, so the pest error that parsing
"fun: \x7ba b c\x7d" produces is modelled from the spec's description:
the typo heuristic is "tied to the first expected rule" near "a
function-declaration rule" with the found text `fun`, i.e. a parsing
error whose first positive rule is `fn_decl` and whose failing span
covers the three bytes of `fun` at the start of the input. -/
def funTypoPestError : PestError :=
  { variant := .parsingError [.fn_decl] []
    location := .span 0 3
    lineCol := .pos 1 1 }

set_option maxRecDepth 10000 in
/-- Claim C7 (confirmed against the spec-modelled parse error):
converting the error for "fun: \x7ba b c\x7d" yields an UnexpectedToken
diagnostic whose suggestion field is exactly "Did you mean \x27fn\x27?". -/
theorem c7_fun_typo_suggestion :
    (enhancePestError funTypoPestError funTypoInput (some "typo.borf")).kind
      = .unexpectedToken ∧
    (enhancePestError funTypoPestError funTypoInput (some "typo.borf")).suggestion
      = some "Did you mean \x27fn\x27?" := by
  exact ⟨rfl, rfl⟩

set_option maxRecDepth 40000 in
/-- Claim C9, amended: equality does imply equal hashes for same-variant
numeric values — Integers always; Floats whenever the pair is not the
two distinct-bit zeros (+0.0 versus -0.0), with NaN normalised before hashing —
but the cross-type Integer/Float identification is not respected by
hashing (the variant discriminant is hashed first), and the +0.0 versus -0.0
pair is equal yet hashes by its two distinct bit patterns. -/
theorem c9_hash_congruence :
    (∀ i j : Int, valueEq (.integer i) (.integer j) = true →
      valueHash (.integer i) = valueHash (.integer j)) ∧
    (∀ a b : Nat, valueEq (.float a) (.float b) = true → (a = b ∨ f64IsZero a = false) →
      valueHash (.float a) = valueHash (.float b)) ∧
    (valueEq (.float 0) (.float f64NegZeroBits) = true ∧
      valueHash (.float 0) ≠ valueHash (.float f64NegZeroBits)) := by
  refine ⟨fun i j h => ?_, fun a b h hz => ?_, ?_, ?_⟩
  · have h' : i = j := by simpa [valueEq] using h
    rw [h']
  · rcases hz with hab | hza
    · rw [hab]
    · by_cases hnan : (f64IsNan a && f64IsNan b) = true
      · obtain ⟨ha, hb⟩ := Bool.and_eq_true_iff.mp hnan
        simp [valueHash, hashWords, ha, hb]
      · have hf : f64Eq a b = true := by
          have h1 : valueEq (.float a) (.float b)
              = (if f64IsNan a && f64IsNan b then true else f64Eq a b) := by
            simp [valueEq]
          rw [h1, if_neg hnan] at h
          exact h
        have hab : a = b := by
          unfold f64Eq at hf
          by_cases hn2 : (f64IsNan a || f64IsNan b) = true
          · rw [if_pos hn2] at hf
            exact Bool.noConfusion hf
          · rw [if_neg hn2] at hf
            rcases Bool.or_eq_true_iff.mp hf with h1 | h2
            · exact beq_iff_eq.mp h1
            · exact absurd (Bool.and_eq_true_iff.mp h2).1 (by simp [hza])
        rw [hab]
  · rw [valueEq.eq_def]
    decide
  · decide

set_option maxRecDepth 40000 in
/-- Claim C9, witness: the amended congruence applied to two NaNs with
different payload bits — they are equal and hash identically (NaN is
normalised to the bits of 0.0 before hashing). -/
theorem c9_hash_congruence_witness :
    valueHash (.float f64NanBits) = valueHash (.float (f64NanBits + 1)) :=
  c9_hash_congruence.2.1 f64NanBits (f64NanBits + 1)
    (by rw [valueEq.eq_def]; decide) (Or.inr (by decide))

/-- Claim C8: whatever order the concurrent insertions land in — any
permutation `schedule` of the driver's insertion table —
`get_ordered_results` returns the jobs' results in the original input
order (read failures wrapped in place, successful reads parsed), one
result per input file. -/
theorem c8_deterministic_order {ioe content r : Type}
    (reads : List (Except ioe content)) (ioWrap : ioe → r) (runJob : content → r)
    (schedule : List (Nat × r))
    (hperm : schedule.Perm (driverInsertions reads ioWrap runJob)) :
    getOrderedResults schedule = reads.map (jobOutcome ioWrap runJob) ∧
    (getOrderedResults schedule).length = reads.length := by
  have main : getOrderedResults schedule = reads.map (jobOutcome ioWrap runJob) := by
    have hins : driverInsertions reads ioWrap runJob
        = indexedFrom 0 (reads.map (jobOutcome ioWrap runJob)) := rfl
    rw [hins] at hperm
    have hkeys : (indexedFrom 0 (reads.map (jobOutcome ioWrap runJob))).map Prod.fst
        = List.range' 0 (reads.map (jobOutcome ioWrap runJob)).length :=
      indexedFrom_map_fst _ 0
    have hnd : ((indexedFrom 0 (reads.map (jobOutcome ioWrap runJob))).map Prod.fst).Nodup := by
      rw [hkeys]; exact List.nodup_range' 0 _
    have hlook : ∀ i, tableLookup i schedule
        = (reads.map (jobOutcome ioWrap runJob)).get? i := by
      intro i
      rw [tableLookup_eq_of_perm hperm hnd i]
      simpa using tableLookup_indexedFrom (reads.map (jobOutcome ioWrap runJob)) 0 i
    show (List.range ((schedule.map Prod.fst).foldl max 0 + 1)).filterMap
        (fun i => tableLookup i schedule) = reads.map (jobOutcome ioWrap runJob)
    have hmaxperm : (schedule.map Prod.fst).foldl max 0
        = ((indexedFrom 0 (reads.map (jobOutcome ioWrap runJob))).map Prod.fst).foldl max 0 :=
      (hperm.map Prod.fst).foldl_eq 0
    rw [hmaxperm, hkeys, ← List.range_eq_range', foldl_max_range,
      funext hlook]
    cases hL : (reads.map (jobOutcome ioWrap runJob)).length with
    | zero =>
      have hnil : reads.map (jobOutcome ioWrap runJob) = [] :=
        List.length_eq_zero.mp hL
      rw [hnil]
      rfl
    | succ m =>
      rw [show m + 1 - 1 + 1 = m + 1 from rfl, ← hL]
      exact filterMap_get?_range _
  exact ⟨main, by rw [main, List.length_map]⟩

/-- Witness for C8: a concrete out-of-order schedule of three jobs
(the middle read failed) drains back to the in-order results. -/
theorem c8_deterministic_order_witness :
    ([(2, 10), (0, 6), (1, 107)] : List (Nat × Nat)).Perm
      (driverInsertions [Except.ok 3, Except.error 7, Except.ok 5]
        (fun e : Nat => e + 100) (fun c : Nat => c * 2)) ∧
    getOrderedResults ([(2, 10), (0, 6), (1, 107)] : List (Nat × Nat))
      = [6, 107, 10] := by
  refine ⟨by decide, ?_⟩
  have := c8_deterministic_order
    [Except.ok 3, Except.error 7, Except.ok 5]
    (fun e : Nat => e + 100) (fun c : Nat => c * 2)
    [(2, 10), (0, 6), (1, 107)]
    (by decide)
  rw [this.1]
  rfl

end Borf
